import Mathlib

/-!
Verification development for the CarVrooom unified ML prediction service
(`models/unified_api.py` and `models/dpf_prediction_api.py`).

The pure fusion/feature layer is shallowly embedded:
* telemetry DataFrames become association lists of rational-valued columns,
* the health-scoring engine, the RUL/probability correction layer and the
  decision fusion engine of `predict_all` become Lean functions over `ℚ`
  (and `ℝ` for the fractional power in `health_score_to_rul`),
* Python float rounding `round(x, k)` is modelled as exact decimal rounding.
-/

/-! ## Rounding and clipping helpers -/

/-- Python `round(x, k)` modelled over an ordered field with floor:
round to `k` decimal places. -/
def roundDec {α : Type} [LinearOrderedField α] [FloorRing α] (k : ℕ) (x : α) : α :=
  ((round ((10 ^ k : α) * x) : ℤ) : α) / 10 ^ k

/-- Rounding to two decimal places, as in `round(x, 2)`. -/
def round2 {α : Type} [LinearOrderedField α] [FloorRing α] (x : α) : α := roundDec 2 x

/-- Rounding to four decimal places, as in `round(x, 4)`. -/
def round4 {α : Type} [LinearOrderedField α] [FloorRing α] (x : α) : α := roundDec 4 x

/-- `np.clip(x, lo, hi)`. -/
def npClip {α : Type} [LinearOrder α] (x lo hi : α) : α := min hi (max lo x)

lemma round_mono' {α : Type} [LinearOrderedField α] [FloorRing α] {a b : α}
    (h : a ≤ b) : round a ≤ round b := by
  rw [round_eq, round_eq]
  exact Int.floor_le_floor (by linarith)

lemma roundDec_mono {α : Type} [LinearOrderedField α] [FloorRing α] (k : ℕ) {a b : α}
    (h : a ≤ b) : roundDec k a ≤ roundDec k b := by
  unfold roundDec
  have h10 : (0:α) < 10 ^ k := by positivity
  have hr : round ((10 ^ k : α) * a) ≤ round ((10 ^ k : α) * b) :=
    round_mono' (by nlinarith)
  have hc : ((round ((10 ^ k : α) * a) : ℤ) : α) ≤ ((round ((10 ^ k : α) * b) : ℤ) : α) :=
    Int.cast_le.mpr hr
  gcongr

lemma roundDec_div_pow {α : Type} [LinearOrderedField α] [FloorRing α] (k : ℕ) (z : ℤ) :
    roundDec k ((z : α) / 10 ^ k) = (z : α) / 10 ^ k := by
  unfold roundDec
  have h10 : (10 ^ k : α) ≠ 0 := by positivity
  rw [mul_div_cancel₀ _ h10, round_intCast]

lemma roundDec_intCast {α : Type} [LinearOrderedField α] [FloorRing α] (k : ℕ) (z : ℤ) :
    roundDec k ((z : α)) = (z : α) := by
  have h10 : (10 ^ k : α) ≠ 0 := by positivity
  have : ((z : α)) = ((z * 10 ^ k : ℤ) : α) / 10 ^ k := by
    push_cast
    field_simp
  rw [this, roundDec_div_pow]

lemma npClip_le {α : Type} [LinearOrder α] (x lo hi : α) : npClip x lo hi ≤ hi :=
  min_le_left _ _

lemma le_npClip {α : Type} [LinearOrder α] (x lo hi : α) (h : lo ≤ hi) :
    lo ≤ npClip x lo hi :=
  le_min h (le_max_left _ _)

lemma npClip_mono {α : Type} [LinearOrder α] {x y : α} (lo hi : α) (h : x ≤ y) :
    npClip x lo hi ≤ npClip y lo hi :=
  min_le_min le_rfl (max_le_max le_rfl h)

/-- Values that are exact `k`-decimal numbers (what Python floats produced by
`round(x, k)` denote in this embedding). -/
def IsDec (k : ℕ) (x : ℚ) : Prop := ∃ z : ℤ, x = (z : ℚ) / 10 ^ k

lemma IsDec.roundDec_eq {k : ℕ} {x : ℚ} (h : IsDec k x) : roundDec k x = x := by
  obtain ⟨z, rfl⟩ := h
  exact roundDec_div_pow k z

lemma IsDec.add {k : ℕ} {x y : ℚ} (hx : IsDec k x) (hy : IsDec k y) : IsDec k (x + y) := by
  obtain ⟨a, rfl⟩ := hx
  obtain ⟨b, rfl⟩ := hy
  exact ⟨a + b, by push_cast; ring⟩

lemma IsDec.min {k : ℕ} {x y : ℚ} (hx : IsDec k x) (hy : IsDec k y) : IsDec k (min x y) := by
  rcases le_total x y with h | h
  · rw [min_eq_left h]; exact hx
  · rw [min_eq_right h]; exact hy

lemma IsDec.max {k : ℕ} {x y : ℚ} (hx : IsDec k x) (hy : IsDec k y) : IsDec k (max x y) := by
  rcases le_total x y with h | h
  · rw [max_eq_right h]; exact hy
  · rw [max_eq_left h]; exact hx

lemma IsDec_one (k : ℕ) : IsDec k 1 :=
  ⟨10 ^ k, by push_cast; rw [div_self]; positivity⟩

lemma IsDec_tenth : IsDec 4 (1 / 10 : ℚ) := ⟨1000, by norm_num⟩

/-! ## Correction layer (`unified_api.py`, `health_score_to_rul` and
`corrected_failure_probability`) -/

/-- Embedding of `health_score_to_rul(score, max_rul_days=90.0)`:
`min_rul = 5.0`, `rul = min_rul + (max_rul_days - min_rul) * score ** 1.8`,
returning `round(max(min_rul, rul), 2)`. The fractional power forces `ℝ`. -/
noncomputable def health_score_to_rul (score : ℝ) : ℝ :=
  round2 (max 5 (5 + (90 - 5) * score ^ (1.8 : ℝ)))

/-- Embedding of `corrected_failure_probability(model_prob, health_score)`:
`signal_prob = 1 - health_score`, `combined = 0.4 * model_prob + 0.6 * signal_prob`,
returning `round(np.clip(combined, 0.0, 1.0), 4)`. -/
def corrected_failure_probability (model_prob health_score : ℚ) : ℚ :=
  round4 (npClip (0.4 * model_prob + 0.6 * (1 - health_score)) 0 1)

lemma round2_ofInt (z : ℤ) : round2 ((z : ℝ)) = (z : ℝ) := roundDec_intCast 2 z

lemma health_score_to_rul_eq {h : ℝ} (h0 : 0 ≤ h) :
    health_score_to_rul h = round2 (5 + 85 * h ^ (1.8 : ℝ)) := by
  unfold health_score_to_rul
  have hpow : 0 ≤ h ^ (1.8 : ℝ) := Real.rpow_nonneg h0 _
  rw [max_eq_right (by nlinarith)]
  norm_num

lemma health_score_to_rul_mono {a b : ℝ} (ha : 0 ≤ a) (hab : a ≤ b) :
    health_score_to_rul a ≤ health_score_to_rul b := by
  unfold health_score_to_rul
  apply roundDec_mono
  have : a ^ (1.8 : ℝ) ≤ b ^ (1.8 : ℝ) := Real.rpow_le_rpow ha hab (by norm_num)
  exact max_le_max le_rfl (by nlinarith)

lemma health_score_to_rul_one : health_score_to_rul 1 = 90 := by
  unfold health_score_to_rul
  rw [Real.one_rpow]
  have : max (5:ℝ) (5 + (90 - 5) * 1) = ((90:ℤ):ℝ) := by norm_num
  rw [this, round2_ofInt]
  norm_num

lemma health_score_to_rul_zero : health_score_to_rul 0 = 5 := by
  unfold health_score_to_rul
  rw [Real.zero_rpow (by norm_num)]
  have : max (5:ℝ) (5 + (90 - 5) * 0) = ((5:ℤ):ℝ) := by norm_num
  rw [this, round2_ofInt]
  norm_num

/-- C5: `health_score_to_rul(h)` equals `5 + 85 * h^1.8` rounded to two decimal
places for every health score `h` in `[0,1]`; it maps `1.0` to `90.0` and `0.0`
to `5.0`, is monotone non-decreasing on `[0,1]`, and its value always lies in
`[5, 90]`. -/
theorem c5_health_score_to_rul (h h2 : ℝ) (h0 : 0 ≤ h) (h1 : h ≤ 1)
    (hle : h ≤ h2) (h2le : h2 ≤ 1) :
    health_score_to_rul h = round2 (5 + 85 * h ^ (1.8 : ℝ)) ∧
    health_score_to_rul 1 = 90 ∧
    health_score_to_rul 0 = 5 ∧
    health_score_to_rul h ≤ health_score_to_rul h2 ∧
    5 ≤ health_score_to_rul h ∧ health_score_to_rul h ≤ 90 := by
  refine ⟨health_score_to_rul_eq h0, health_score_to_rul_one, health_score_to_rul_zero,
    health_score_to_rul_mono h0 hle, ?_, ?_⟩
  · have := health_score_to_rul_mono le_rfl h0
    rw [health_score_to_rul_zero] at this
    exact this
  · have := health_score_to_rul_mono h0 h1
    rw [health_score_to_rul_one] at this
    exact this

theorem c5_health_score_to_rul_witness :
    ((0:ℝ) ≤ 0 ∧ (0:ℝ) ≤ 1 ∧ (0:ℝ) ≤ 1 ∧ (1:ℝ) ≤ 1) ∧
    (health_score_to_rul 0 = round2 (5 + 85 * (0:ℝ) ^ (1.8 : ℝ)) ∧
      health_score_to_rul 1 = 90 ∧
      health_score_to_rul 0 = 5 ∧
      health_score_to_rul 0 ≤ health_score_to_rul 1 ∧
      5 ≤ health_score_to_rul 0 ∧ health_score_to_rul 0 ≤ 90) :=
  ⟨by norm_num,
    c5_health_score_to_rul 0 1 le_rfl (by norm_num) (by norm_num) le_rfl⟩

lemma round4_zero_le {x : ℚ} (hx : 0 ≤ x) : 0 ≤ round4 x := by
  have h0 : round4 (0:ℚ) = 0 := by
    have : ((0:ℤ):ℚ) = (0:ℚ) := by norm_num
    simpa [this] using roundDec_intCast (α := ℚ) 4 0
  calc (0:ℚ) = round4 0 := h0.symm
    _ ≤ round4 x := roundDec_mono 4 hx

lemma round4_le_one {x : ℚ} (hx : x ≤ 1) : round4 x ≤ 1 := by
  have h1 : round4 (1:ℚ) = 1 := by
    have : ((1:ℤ):ℚ) = (1:ℚ) := by norm_num
    simpa [this] using roundDec_intCast (α := ℚ) 4 1
  calc round4 x ≤ round4 1 := roundDec_mono 4 hx
    _ = 1 := h1

/-- C6: `corrected_failure_probability(p, h)` equals
`clip(0.4 * p + 0.6 * (1 - h), 0, 1)` rounded to four decimal places, and for
`p, h` in `[0,1]` the result lies in `[0,1]`. -/
theorem c6_corrected_failure_probability (p h : ℚ)
    (hp0 : 0 ≤ p) (hp1 : p ≤ 1) (hh0 : 0 ≤ h) (hh1 : h ≤ 1) :
    corrected_failure_probability p h
      = round4 (npClip (0.4 * p + 0.6 * (1 - h)) 0 1) ∧
    0 ≤ corrected_failure_probability p h ∧
    corrected_failure_probability p h ≤ 1 := by
  refine ⟨rfl, ?_, ?_⟩
  · exact round4_zero_le (le_npClip _ _ _ (by norm_num))
  · exact round4_le_one (npClip_le _ _ _)

theorem c6_corrected_failure_probability_witness :
    ((0:ℚ) ≤ 1/2 ∧ (1/2:ℚ) ≤ 1) ∧
    (corrected_failure_probability (1/2) (1/2)
        = round4 (npClip (0.4 * (1/2) + 0.6 * (1 - 1/2)) 0 1) ∧
      0 ≤ corrected_failure_probability (1/2) (1/2) ∧
      corrected_failure_probability (1/2) (1/2) ≤ 1) :=
  ⟨by norm_num,
    c6_corrected_failure_probability (1/2) (1/2) (by norm_num) (by norm_num)
      (by norm_num) (by norm_num)⟩

/-! ## Telemetry DataFrames

A pandas DataFrame is embedded as an association list of named rational
columns together with its row count.  `getCol` is column selection
(`df["name"]`), `hasCol` is `"name" in df.columns`, `lastRowsDf n`
is `df.iloc[-n:]` and `addCol` adds a new column (`df["name"] = values`). -/

structure Df where
  nrows : ℕ
  cols : List (String × List ℚ)
deriving DecidableEq

def getCol (df : Df) (c : String) : List ℚ :=
  match df.cols.find? (fun p => p.1 == c) with
  | some p => p.2
  | none => []

def hasCol (df : Df) (c : String) : Bool :=
  (df.cols.find? (fun p => p.1 == c)).isSome

def addCol (df : Df) (c : String) (v : List ℚ) : Df :=
  { nrows := df.nrows, cols := df.cols ++ [(c, v)] }

/-- `df[c] = v` guarded by `if c not in df.columns`. -/
def addColIfMissing (df : Df) (c : String) (v : List ℚ) : Df :=
  if hasCol df c then df else addCol df c v

/-- The last `n` entries of a list (`iloc[-n:]` on one column). -/
def takeLast (n : ℕ) (l : List ℚ) : List ℚ := l.drop (l.length - n)

/-- `df.iloc[-n:]`. -/
def lastRowsDf (n : ℕ) (df : Df) : Df :=
  { nrows := min df.nrows n, cols := df.cols.map (fun p => (p.1, takeLast n p.2)) }

/-- `series.mean()`. -/
def listMean (l : List ℚ) : ℚ := l.sum / l.length

/-- `series.iloc[-1]` (with a default for the empty series). -/
def listLastD (l : List ℚ) : ℚ := l.getLast?.getD 0

/-- Slope coefficient of `np.polyfit(np.arange(len(ys)), ys, 1)`: the
least-squares straight-line slope. -/
def lsSlope (ys : List ℚ) : ℚ :=
  let n : ℚ := ys.length
  let xs : List ℚ := (List.range ys.length).map (fun i => (i : ℚ))
  let sx := xs.sum
  let sy := ys.sum
  let sxy := (List.zipWith (fun x y => x * y) xs ys).sum
  let sxx := (xs.map (fun x => x * x)).sum
  (n * sxy - sx * sy) / (n * sxx - sx * sx)

lemma getCol_lastRowsDf (n : ℕ) (df : Df) (c : String) :
    getCol (lastRowsDf n df) c = takeLast n (getCol df c) := by
  unfold getCol lastRowsDf
  induction df.cols with
  | nil => simp [takeLast]
  | cons p l ih =>
    simp only [List.map_cons, List.find?_cons]
    cases hbc : (p.1 == c) with
    | true => simp
    | false => simpa using ih

lemma hasCol_lastRowsDf (n : ℕ) (df : Df) (c : String) :
    hasCol (lastRowsDf n df) c = hasCol df c := by
  unfold hasCol lastRowsDf
  induction df.cols with
  | nil => simp
  | cons p l ih =>
    simp only [List.map_cons, List.find?_cons]
    cases hbc : (p.1 == c) with
    | true => simp
    | false => simpa using ih

lemma nrows_addColIfMissing (df : Df) (c : String) (v : List ℚ) :
    (addColIfMissing df c v).nrows = df.nrows := by
  unfold addColIfMissing addCol
  split <;> rfl

lemma getCol_addCol_ne (df : Df) (c c' : String) (v : List ℚ) (h : c' ≠ c) :
    getCol (addCol df c v) c' = getCol df c' := by
  unfold getCol addCol
  simp only [List.find?_append]
  cases hf : df.cols.find? (fun p => p.1 == c') with
  | some p => simp [hf]
  | none =>
    simp only [hf, Option.none_or]
    have hb : (c == c') = false := by simp [Ne.symm h]
    simp [List.find?, hb]

lemma getCol_addColIfMissing_ne (df : Df) (c c' : String) (v : List ℚ) (h : c' ≠ c) :
    getCol (addColIfMissing df c v) c' = getCol df c' := by
  unfold addColIfMissing
  split
  · rfl
  · exact getCol_addCol_ne df c c' v h

lemma hasCol_addCol_ne (df : Df) (c c' : String) (v : List ℚ) (h : c' ≠ c) :
    hasCol (addCol df c v) c' = hasCol df c' := by
  unfold hasCol addCol
  simp only [List.find?_append]
  cases hf : df.cols.find? (fun p => p.1 == c') with
  | some p => simp [hf]
  | none =>
    simp only [hf, Option.none_or]
    have hb : (c == c') = false := by simp [Ne.symm h]
    simp [List.find?, hb]

lemma getCol_addCol_missing (df : Df) (c : String) (v : List ℚ) (h : hasCol df c = false) :
    getCol (addCol df c v) c = v := by
  unfold getCol addCol
  unfold hasCol at h
  simp only [List.find?_append]
  cases hf : df.cols.find? (fun p => p.1 == c) with
  | some p => rw [hf] at h; simp at h
  | none => simp [hf, List.find?]

/-! ## Signal-based health scoring (`unified_api.py`)

Each indicator is normalised against its `(healthy, critical)` thresholds
from `DPF_THRESHOLDS` / `SCR_THRESHOLDS` / `OIL_THRESHOLDS`, exactly as the
inline expressions in `dpf_signal_health_score`, `scr_signal_health_score`
and `oil_signal_health_score`. -/

def dpf_soot_score (soot : ℚ) : ℚ := 1 - npClip ((soot - 45) / (80 - 45)) 0 1

def dpf_failed_regen_score (regen : ℚ) : ℚ := 1 - npClip ((regen - 5) / (20 - 5)) 0 1

def dpf_delta_p_score (dpMeanAbs : ℚ) : ℚ := 1 - npClip ((dpMeanAbs - 8) / (12 - 8)) 0 1

def scr_nox_conversion_score (conv : ℚ) : ℚ := npClip ((conv - 60) / (90 - 60)) 0 1

def scr_nox_down_score (nox : ℚ) : ℚ := 1 - npClip ((nox - 15) / (60 - 15)) 0 1

def oil_level_score (lvl : ℚ) : ℚ := 1 - npClip ((lvl - 5.1) / (6.5 - 5.1)) 0 1

def oil_pressure_score (p : ℚ) : ℚ := npClip ((p - 1.2) / (1.9 - 1.2)) 0 1

def oil_level_change_score (ch : ℚ) : ℚ := 1 - npClip ((ch - 0.05) / (1.2 - 0.05)) 0 1

/-- The oil pressure-slope indicator: `1.0` when the fitted slope is at or
above the healthy threshold `0.0`, otherwise the threshold normalisation
against `critical = -0.00005`. -/
def oil_pressure_slope_score (slope : ℚ) : ℚ :=
  if (0 : ℚ) ≤ slope then 1
  else 1 - npClip ((0 - slope) / (0 - (-0.00005))) 0 1

/-- The last-day window `df.iloc[-288:]` used by the DPF health score. -/
def dpf_window (df : Df) : Df := lastRowsDf 288 df

/-- `window["dpf.soot_load_pct_est"].mean()`. -/
def dpf_soot (df : Df) : ℚ := listMean (getCol (dpf_window df) "dpf.soot_load_pct_est")

/-- `float(window["dpf.failed_regen_count"].iloc[-1])`. -/
def dpf_regen (df : Df) : ℚ := listLastD (getCol (dpf_window df) "dpf.failed_regen_count")

/-- The `dp` series: the `dpf_delta_p` column when present, otherwise
`downstream - upstream`. -/
def dpf_dp (df : Df) : List ℚ :=
  if hasCol (dpf_window df) "dpf_delta_p" then getCol (dpf_window df) "dpf_delta_p"
  else List.zipWith (fun a b => a - b)
    (getCol (dpf_window df) "dpf.diff_pressure_kpa_downstream")
    (getCol (dpf_window df) "dpf.diff_pressure_kpa_upstream")

/-- Embedding of `dpf_signal_health_score(df)`: mean soot load, last failed
regen count, and `abs(dp.mean())` over the last 288 rows. -/
def dpf_signal_health_score (df : Df) : ℚ :=
  (dpf_soot_score (dpf_soot df) + dpf_failed_regen_score (dpf_regen df)
    + dpf_delta_p_score |listMean (dpf_dp df)|) / 3

/-- Embedding of `scr_signal_health_score(df)`: mean NOx conversion and mean
downstream NOx over the last 288 rows. -/
def scr_signal_health_score (df : Df) : ℚ :=
  (scr_nox_conversion_score (listMean (getCol (lastRowsDf 288 df) "scr.nox_conversion_pct"))
    + scr_nox_down_score (listMean (getCol (lastRowsDf 288 df) "scr.nox_down_ppm"))) / 2

/-- `df.iloc[-576:] if len(df) >= 576 else df`. -/
def oil_window (df : Df) : Df := if 576 ≤ df.nrows then lastRowsDf 576 df else df

/-- `window["engine_powertrain.oil_level_l"].mean()`. -/
def oil_level_mean (df : Df) : ℚ :=
  listMean (getCol (oil_window df) "engine_powertrain.oil_level_l")

/-- `window["engine_powertrain.oil_pressure_bar"].mean()`. -/
def oil_pressure_mean (df : Df) : ℚ :=
  listMean (getCol (oil_window df) "engine_powertrain.oil_pressure_bar")

/-- `q = n // 4`, quarter length of the full window. -/
def oil_q (df : Df) : ℕ := df.nrows / 4

/-- `last_q_level - first_q_level` over the full window. -/
def oil_level_change (df : Df) : ℚ :=
  listMean (takeLast (oil_q df) (getCol df "engine_powertrain.oil_level_l"))
    - listMean ((getCol df "engine_powertrain.oil_level_l").take (oil_q df))

/-- `np.polyfit(np.arange(len(df)), df["engine_powertrain.oil_pressure_bar"], 1)[0]`. -/
def oil_pressure_slope (df : Df) : ℚ :=
  lsSlope (getCol df "engine_powertrain.oil_pressure_bar")

/-- The `scores` list built by `oil_signal_health_score`: the level-change
indicator is appended only when `q > 0`. -/
def oil_scores (df : Df) : List ℚ :=
  oil_level_score (oil_level_mean df) :: oil_pressure_score (oil_pressure_mean df) ::
    ((if 0 < oil_q df then [oil_level_change_score (oil_level_change df)] else [])
      ++ [oil_pressure_slope_score (oil_pressure_slope df)])

/-- Embedding of `oil_signal_health_score(df)`: mean of the applicable
indicator scores. -/
def oil_signal_health_score (df : Df) : ℚ :=
  (oil_scores df).sum / (oil_scores df).length

/-- Embedding of `synthesize_missing_oil_cols(df)`: the pseudo-random
`np.random.normal` draws are passed in explicitly as noise lists. -/
def synthesize_missing_oil_cols (df : Df) (noise_fuel noise_bp noise_boost : List ℚ) : Df :=
  let out1 := addColIfMissing df "engine_powertrain.fuel_consumption_lph"
    (List.zipWith (fun v e => v + e)
      (List.zipWith (fun l r => l * 0.35 + r * 0.005)
        (getCol df "engine_powertrain.engine_load_pct")
        (getCol df "engine_powertrain.engine_rpm"))
      noise_fuel)
  let out2 := addColIfMissing out1 "engine_powertrain.exhaust_backpressure_kpa"
    (List.zipWith (fun u e => u * 0.8 + e)
      (getCol out1 "dpf.diff_pressure_kpa_upstream") noise_bp)
  addColIfMissing out2 "engine_powertrain.boost_pressure_kpa"
    (List.zipWith (fun v e => v + e)
      (List.zipWith (fun l r => l * 1.5 + r * 0.02)
        (getCol out2 "engine_powertrain.engine_load_pct")
        (getCol out2 "engine_powertrain.engine_rpm"))
      noise_boost)

/-! ## C7: indicator bounds, monotonicity, and health scores as means -/

lemma npClip01_bounds (x : ℚ) : 0 ≤ npClip x 0 1 ∧ npClip x 0 1 ≤ 1 :=
  ⟨le_npClip x 0 1 (by norm_num), npClip_le x 0 1⟩

lemma one_sub_npClip01_bounds (x : ℚ) : 0 ≤ 1 - npClip x 0 1 ∧ 1 - npClip x 0 1 ≤ 1 := by
  have h := npClip01_bounds x
  constructor <;> linarith [h.1, h.2]

lemma higher_worse_anti {hl cr a b : ℚ} (hpos : 0 < cr - hl) (h : a ≤ b) :
    1 - npClip ((b - hl) / (cr - hl)) 0 1 ≤ 1 - npClip ((a - hl) / (cr - hl)) 0 1 := by
  have hdiv : (a - hl) / (cr - hl) ≤ (b - hl) / (cr - hl) :=
    (div_le_div_right hpos).mpr (by linarith)
  have := npClip_mono (0:ℚ) 1 hdiv
  linarith

lemma lower_worse_mono {cr hl a b : ℚ} (hpos : 0 < hl - cr) (h : a ≤ b) :
    npClip ((a - cr) / (hl - cr)) 0 1 ≤ npClip ((b - cr) / (hl - cr)) 0 1 := by
  have hdiv : (a - cr) / (hl - cr) ≤ (b - cr) / (hl - cr) :=
    (div_le_div_right hpos).mpr (by linarith)
  exact npClip_mono (0:ℚ) 1 hdiv

lemma oil_pressure_slope_score_bounds (x : ℚ) :
    0 ≤ oil_pressure_slope_score x ∧ oil_pressure_slope_score x ≤ 1 := by
  unfold oil_pressure_slope_score
  split
  · norm_num
  · exact one_sub_npClip01_bounds _

lemma oil_pressure_slope_score_mono {a b : ℚ} (h : a ≤ b) :
    oil_pressure_slope_score a ≤ oil_pressure_slope_score b := by
  unfold oil_pressure_slope_score
  by_cases ha : (0:ℚ) ≤ a
  · rw [if_pos ha, if_pos (le_trans ha h)]
  · rw [if_neg ha]
    by_cases hb : (0:ℚ) ≤ b
    · rw [if_pos hb]
      exact (one_sub_npClip01_bounds _).2
    · rw [if_neg hb]
      have hdiv : (0 - b) / (0 - (-0.00005) : ℚ) ≤ (0 - a) / (0 - (-0.00005)) :=
        (div_le_div_right (by norm_num)).mpr (by linarith)
      have := npClip_mono (0:ℚ) 1 hdiv
      linarith

lemma mean3_bounds {x y z : ℚ} (hx : 0 ≤ x ∧ x ≤ 1) (hy : 0 ≤ y ∧ y ≤ 1)
    (hz : 0 ≤ z ∧ z ≤ 1) : 0 ≤ (x + y + z) / 3 ∧ (x + y + z) / 3 ≤ 1 := by
  constructor
  · apply div_nonneg (by linarith [hx.1, hy.1, hz.1]) (by norm_num)
  · rw [div_le_one (by norm_num)]
    linarith [hx.2, hy.2, hz.2]

lemma mean2_bounds {x y : ℚ} (hx : 0 ≤ x ∧ x ≤ 1) (hy : 0 ≤ y ∧ y ≤ 1) :
    0 ≤ (x + y) / 2 ∧ (x + y) / 2 ≤ 1 := by
  constructor
  · apply div_nonneg (by linarith [hx.1, hy.1]) (by norm_num)
  · rw [div_le_one (by norm_num)]
    linarith [hx.2, hy.2]

lemma mean4_bounds {x y z w : ℚ} (hx : 0 ≤ x ∧ x ≤ 1) (hy : 0 ≤ y ∧ y ≤ 1)
    (hz : 0 ≤ z ∧ z ≤ 1) (hw : 0 ≤ w ∧ w ≤ 1) :
    0 ≤ (x + y + z + w) / 4 ∧ (x + y + z + w) / 4 ≤ 1 := by
  constructor
  · apply div_nonneg (by linarith [hx.1, hy.1, hz.1, hw.1]) (by norm_num)
  · rw [div_le_one (by norm_num)]
    linarith [hx.2, hy.2, hz.2, hw.2]

lemma oil_scores_pos (df : Df) (hq : 0 < oil_q df) :
    oil_signal_health_score df =
      (oil_level_score (oil_level_mean df) + oil_pressure_score (oil_pressure_mean df)
        + oil_level_change_score (oil_level_change df)
        + oil_pressure_slope_score (oil_pressure_slope df)) / 4 := by
  unfold oil_signal_health_score oil_scores
  rw [if_pos hq]
  simp only [List.cons_append, List.nil_append, List.sum_cons, List.sum_nil,
    List.length_cons, List.length_nil]
  push_cast
  ring

lemma oil_scores_zero (df : Df) (hq : oil_q df = 0) :
    oil_signal_health_score df =
      (oil_level_score (oil_level_mean df) + oil_pressure_score (oil_pressure_mean df)
        + oil_pressure_slope_score (oil_pressure_slope df)) / 3 := by
  unfold oil_signal_health_score oil_scores
  rw [if_neg (by omega)]
  simp only [List.cons_append, List.nil_append, List.sum_cons, List.sum_nil,
    List.length_cons, List.length_nil]
  push_cast
  ring

/-- A small concrete telemetry window used as an evaluation point. -/
def dfTest : Df :=
  { nrows := 4,
    cols := [("engine_powertrain.oil_level_l", [5, 5, 5, 5]),
             ("engine_powertrain.oil_pressure_bar", [2, 2, 2, 2]),
             ("dpf.soot_load_pct_est", [40, 40, 40, 40]),
             ("dpf.failed_regen_count", [0, 0, 0, 0]),
             ("dpf.diff_pressure_kpa_downstream", [1, 2, 3, 4]),
             ("dpf.diff_pressure_kpa_upstream", [6, 6, 6, 6]),
             ("scr.nox_conversion_pct", [95, 95, 95, 95]),
             ("scr.nox_down_ppm", [10, 10, 10, 10]),
             ("engine_powertrain.engine_load_pct", [50, 50, 50, 50]),
             ("engine_powertrain.engine_rpm", [1000, 1000, 1000, 1000])] }

/-- C7: every subsystem health score lies in `[0,1]` and equals the arithmetic
mean of its indicator scores; every indicator score lies in `[0,1]` and is
monotone with respect to its indicator in the documented worse-direction
(higher-is-worse indicators score antitonically, lower-is-worse ones
monotonically); and the oil pressure-slope indicator scores exactly `1.0`
whenever the fitted slope is at or above its healthy threshold `0.0`. -/
theorem c7_signal_health_scores (df : Df) (a b s : ℚ) (hab : a ≤ b) (hs : 0 ≤ s) :
    (0 ≤ dpf_signal_health_score df ∧ dpf_signal_health_score df ≤ 1) ∧
    (0 ≤ scr_signal_health_score df ∧ scr_signal_health_score df ≤ 1) ∧
    (0 ≤ oil_signal_health_score df ∧ oil_signal_health_score df ≤ 1) ∧
    dpf_signal_health_score df
      = (dpf_soot_score (dpf_soot df) + dpf_failed_regen_score (dpf_regen df)
          + dpf_delta_p_score |listMean (dpf_dp df)|) / 3 ∧
    scr_signal_health_score df
      = (scr_nox_conversion_score (listMean (getCol (lastRowsDf 288 df) "scr.nox_conversion_pct"))
          + scr_nox_down_score (listMean (getCol (lastRowsDf 288 df) "scr.nox_down_ppm"))) / 2 ∧
    (0 < oil_q df → oil_signal_health_score df
      = (oil_level_score (oil_level_mean df) + oil_pressure_score (oil_pressure_mean df)
          + oil_level_change_score (oil_level_change df)
          + oil_pressure_slope_score (oil_pressure_slope df)) / 4) ∧
    (oil_q df = 0 → oil_signal_health_score df
      = (oil_level_score (oil_level_mean df) + oil_pressure_score (oil_pressure_mean df)
          + oil_pressure_slope_score (oil_pressure_slope df)) / 3) ∧
    (dpf_soot_score b ≤ dpf_soot_score a ∧ 0 ≤ dpf_soot_score a ∧ dpf_soot_score a ≤ 1) ∧
    (dpf_failed_regen_score b ≤ dpf_failed_regen_score a
      ∧ 0 ≤ dpf_failed_regen_score a ∧ dpf_failed_regen_score a ≤ 1) ∧
    (dpf_delta_p_score b ≤ dpf_delta_p_score a
      ∧ 0 ≤ dpf_delta_p_score a ∧ dpf_delta_p_score a ≤ 1) ∧
    (scr_nox_conversion_score a ≤ scr_nox_conversion_score b
      ∧ 0 ≤ scr_nox_conversion_score a ∧ scr_nox_conversion_score a ≤ 1) ∧
    (scr_nox_down_score b ≤ scr_nox_down_score a
      ∧ 0 ≤ scr_nox_down_score a ∧ scr_nox_down_score a ≤ 1) ∧
    (oil_level_score b ≤ oil_level_score a
      ∧ 0 ≤ oil_level_score a ∧ oil_level_score a ≤ 1) ∧
    (oil_pressure_score a ≤ oil_pressure_score b
      ∧ 0 ≤ oil_pressure_score a ∧ oil_pressure_score a ≤ 1) ∧
    (oil_level_change_score b ≤ oil_level_change_score a
      ∧ 0 ≤ oil_level_change_score a ∧ oil_level_change_score a ≤ 1) ∧
    (oil_pressure_slope_score a ≤ oil_pressure_slope_score b
      ∧ 0 ≤ oil_pressure_slope_score a ∧ oil_pressure_slope_score a ≤ 1) ∧
    oil_pressure_slope_score s = 1 := by
  have hdpf : 0 ≤ dpf_signal_health_score df ∧ dpf_signal_health_score df ≤ 1 := by
    unfold dpf_signal_health_score
    exact mean3_bounds (one_sub_npClip01_bounds _) (one_sub_npClip01_bounds _)
      (one_sub_npClip01_bounds _)
  have hscr : 0 ≤ scr_signal_health_score df ∧ scr_signal_health_score df ≤ 1 := by
    unfold scr_signal_health_score
    exact mean2_bounds (npClip01_bounds _) (one_sub_npClip01_bounds _)
  have hoil : 0 ≤ oil_signal_health_score df ∧ oil_signal_health_score df ≤ 1 := by
    by_cases hq : 0 < oil_q df
    · rw [oil_scores_pos df hq]
      exact mean4_bounds (one_sub_npClip01_bounds _) (npClip01_bounds _)
        (one_sub_npClip01_bounds _) (oil_pressure_slope_score_bounds _)
    · rw [oil_scores_zero df (by omega)]
      exact mean3_bounds (one_sub_npClip01_bounds _) (npClip01_bounds _)
        (oil_pressure_slope_score_bounds _)
  refine ⟨hdpf, hscr, hoil, rfl, rfl, oil_scores_pos df, oil_scores_zero df,
    ⟨higher_worse_anti (by norm_num) hab, one_sub_npClip01_bounds _⟩,
    ⟨higher_worse_anti (by norm_num) hab, one_sub_npClip01_bounds _⟩,
    ⟨higher_worse_anti (by norm_num) hab, one_sub_npClip01_bounds _⟩,
    ⟨lower_worse_mono (by norm_num) hab, npClip01_bounds _⟩,
    ⟨higher_worse_anti (by norm_num) hab, one_sub_npClip01_bounds _⟩,
    ⟨higher_worse_anti (by norm_num) hab, one_sub_npClip01_bounds _⟩,
    ⟨lower_worse_mono (by norm_num) hab, npClip01_bounds _⟩,
    ⟨higher_worse_anti (by norm_num) hab, one_sub_npClip01_bounds _⟩,
    ⟨oil_pressure_slope_score_mono hab, oil_pressure_slope_score_bounds _⟩,
    if_pos hs⟩

theorem c7_signal_health_scores_witness :
    ((1:ℚ) ≤ 2 ∧ (0:ℚ) ≤ 0) ∧
    (0 ≤ dpf_signal_health_score dfTest ∧ dpf_signal_health_score dfTest ≤ 1) ∧
    (0 ≤ oil_signal_health_score dfTest ∧ oil_signal_health_score dfTest ≤ 1) ∧
    dpf_soot_score 2 ≤ dpf_soot_score 1 ∧ oil_pressure_slope_score 0 = 1 := by
  have h := c7_signal_health_scores dfTest 1 2 0 (by norm_num) le_rfl
  exact ⟨⟨by norm_num, le_rfl⟩, h.1, h.2.2.1, h.2.2.2.2.2.2.2.1.1,
    h.2.2.2.2.2.2.2.2.2.2.2.2.2.2.2.2⟩

/-! ## C9: determinism and independence from the synthesized oil columns -/

lemma hasCol_addCol_self (df : Df) (c : String) (v : List ℚ) :
    hasCol (addCol df c v) c = true := by
  unfold hasCol addCol
  simp only [List.find?_append]
  cases hf : df.cols.find? (fun p => p.1 == c) with
  | some p => simp [hf]
  | none => simp [hf, List.find?]

lemma nrows_synthesize (df : Df) (n1 n2 n3 : List ℚ) :
    (synthesize_missing_oil_cols df n1 n2 n3).nrows = df.nrows := by
  unfold synthesize_missing_oil_cols
  rw [nrows_addColIfMissing, nrows_addColIfMissing, nrows_addColIfMissing]

lemma getCol_synthesize_ne (df : Df) (n1 n2 n3 : List ℚ) (c : String)
    (h1 : c ≠ "engine_powertrain.fuel_consumption_lph")
    (h2 : c ≠ "engine_powertrain.exhaust_backpressure_kpa")
    (h3 : c ≠ "engine_powertrain.boost_pressure_kpa") :
    getCol (synthesize_missing_oil_cols df n1 n2 n3) c = getCol df c := by
  unfold synthesize_missing_oil_cols
  rw [getCol_addColIfMissing_ne _ _ _ _ h3, getCol_addColIfMissing_ne _ _ _ _ h2,
    getCol_addColIfMissing_ne _ _ _ _ h1]

lemma getCol_oil_window_synthesize (df : Df) (n1 n2 n3 : List ℚ) (c : String)
    (h1 : c ≠ "engine_powertrain.fuel_consumption_lph")
    (h2 : c ≠ "engine_powertrain.exhaust_backpressure_kpa")
    (h3 : c ≠ "engine_powertrain.boost_pressure_kpa") :
    getCol (oil_window (synthesize_missing_oil_cols df n1 n2 n3)) c
      = getCol (oil_window df) c := by
  unfold oil_window
  rw [nrows_synthesize]
  split
  · rw [getCol_lastRowsDf, getCol_lastRowsDf, getCol_synthesize_ne df n1 n2 n3 c h1 h2 h3]
  · exact getCol_synthesize_ne df n1 n2 n3 c h1 h2 h3

lemma oil_q_synthesize (df : Df) (n1 n2 n3 : List ℚ) :
    oil_q (synthesize_missing_oil_cols df n1 n2 n3) = oil_q df := by
  unfold oil_q
  rw [nrows_synthesize]

lemma oil_health_synthesize (df : Df) (n1 n2 n3 : List ℚ) :
    oil_signal_health_score (synthesize_missing_oil_cols df n1 n2 n3)
      = oil_signal_health_score df := by
  unfold oil_signal_health_score oil_scores oil_level_mean oil_pressure_mean
    oil_level_change oil_pressure_slope
  rw [oil_q_synthesize,
    getCol_oil_window_synthesize df n1 n2 n3 "engine_powertrain.oil_level_l"
      (by decide) (by decide) (by decide),
    getCol_oil_window_synthesize df n1 n2 n3 "engine_powertrain.oil_pressure_bar"
      (by decide) (by decide) (by decide),
    getCol_synthesize_ne df n1 n2 n3 "engine_powertrain.oil_level_l"
      (by decide) (by decide) (by decide),
    getCol_synthesize_ne df n1 n2 n3 "engine_powertrain.oil_pressure_bar"
      (by decide) (by decide) (by decide)]

/-- C9: each subsystem health score is a deterministic function of the raw
telemetry window (equal inputs give equal outputs), and the oil health score
is unchanged by the pseudo-random synthesis of the missing
fuel-consumption/backpressure/boost columns, whatever noise was drawn. -/
theorem c9_health_score_deterministic (df df2 : Df) (n1 n2 n3 : List ℚ)
    (heq : df = df2) :
    oil_signal_health_score (synthesize_missing_oil_cols df n1 n2 n3)
      = oil_signal_health_score df ∧
    dpf_signal_health_score df = dpf_signal_health_score df2 ∧
    scr_signal_health_score df = scr_signal_health_score df2 ∧
    oil_signal_health_score df = oil_signal_health_score df2 :=
  ⟨oil_health_synthesize df n1 n2 n3, congrArg _ heq, congrArg _ heq, congrArg _ heq⟩

theorem c9_health_score_deterministic_witness :
    (dfTest = dfTest) ∧
    (oil_signal_health_score (synthesize_missing_oil_cols dfTest [1, 2, 3, 4] [5, 6, 7, 8] [9, 10, 11, 12])
        = oil_signal_health_score dfTest ∧
      dpf_signal_health_score dfTest = dpf_signal_health_score dfTest ∧
      scr_signal_health_score dfTest = scr_signal_health_score dfTest ∧
      oil_signal_health_score dfTest = oil_signal_health_score dfTest) :=
  ⟨rfl, c9_health_score_deterministic dfTest dfTest [1, 2, 3, 4] [5, 6, 7, 8] [9, 10, 11, 12] rfl⟩

/-! ## C10: the DPF health score is invariant under the delta-p sign convention -/

lemma zipWith_sub_swap (a b : List ℚ) :
    List.zipWith (fun x y => x - y) a b
      = (List.zipWith (fun x y => x - y) b a).map (fun x => -x) := by
  induction a generalizing b with
  | nil => cases b <;> simp
  | cons x xs ih =>
    cases b with
    | nil => simp
    | cons y ys => simp [ih ys, neg_sub]

lemma listSum_map_neg (l : List ℚ) : (l.map (fun x => -x)).sum = -l.sum := by
  induction l with
  | nil => simp
  | cons x xs ih => simp [ih]; ring

lemma listMean_map_neg (l : List ℚ) : listMean (l.map (fun x => -x)) = -listMean l := by
  unfold listMean
  rw [listSum_map_neg, List.length_map, neg_div]

lemma takeLast_map_neg (n : ℕ) (l : List ℚ) :
    takeLast n (l.map (fun x => -x)) = (takeLast n l).map (fun x => -x) := by
  unfold takeLast
  rw [List.length_map, List.map_drop]

lemma takeLast_zipWith_sub (n : ℕ) (a b : List ℚ) (h : a.length = b.length) :
    takeLast n (List.zipWith (fun x y => x - y) a b)
      = List.zipWith (fun x y => x - y) (takeLast n a) (takeLast n b) := by
  unfold takeLast
  rw [List.drop_zipWith, List.length_zipWith, h, min_self]

lemma dpf_soot_addCol_delta (df : Df) (v : List ℚ) :
    dpf_soot (addCol df "dpf_delta_p" v) = dpf_soot df := by
  unfold dpf_soot dpf_window
  rw [getCol_lastRowsDf, getCol_lastRowsDf, getCol_addCol_ne df _ _ v (by decide)]

lemma dpf_regen_addCol_delta (df : Df) (v : List ℚ) :
    dpf_regen (addCol df "dpf_delta_p" v) = dpf_regen df := by
  unfold dpf_regen dpf_window
  rw [getCol_lastRowsDf, getCol_lastRowsDf, getCol_addCol_ne df _ _ v (by decide)]

lemma dpf_dp_addCol_delta (df : Df) (v : List ℚ) (hnc : hasCol df "dpf_delta_p" = false) :
    dpf_dp (addCol df "dpf_delta_p" v) = takeLast 288 v := by
  unfold dpf_dp dpf_window
  rw [if_pos (by rw [hasCol_lastRowsDf, hasCol_addCol_self]),
    getCol_lastRowsDf, getCol_addCol_missing df _ v hnc]

lemma dpf_dp_no_col (df : Df) (hnc : hasCol df "dpf_delta_p" = false) :
    dpf_dp df = List.zipWith (fun a b => a - b)
      (takeLast 288 (getCol df "dpf.diff_pressure_kpa_downstream"))
      (takeLast 288 (getCol df "dpf.diff_pressure_kpa_upstream")) := by
  unfold dpf_dp dpf_window
  rw [if_neg (by rw [hasCol_lastRowsDf, hnc]; simp), getCol_lastRowsDf, getCol_lastRowsDf]

lemma dpf_health_addCol_delta (df : Df) (v : List ℚ) (hnc : hasCol df "dpf_delta_p" = false) :
    dpf_signal_health_score (addCol df "dpf_delta_p" v)
      = (dpf_soot_score (dpf_soot df) + dpf_failed_regen_score (dpf_regen df)
          + dpf_delta_p_score |listMean (takeLast 288 v)|) / 3 := by
  unfold dpf_signal_health_score
  rw [dpf_soot_addCol_delta, dpf_regen_addCol_delta, dpf_dp_addCol_delta df v hnc]

/-- C10: for a window without a provided `dpf_delta_p` column, attaching the
column computed as `downstream - upstream` (the unified pipeline convention)
or as `upstream - downstream` (the standalone DPF API convention) yields the
same DPF health score — the score depends on delta-p only through the
absolute value of its window mean — and it also equals the score obtained by
letting `dpf_signal_health_score` derive delta-p itself; hence the corrected
`rul_days` agree as well. -/
theorem c10_dpf_delta_sign_invariance (df : Df)
    (hnc : hasCol df "dpf_delta_p" = false)
    (hlen : (getCol df "dpf.diff_pressure_kpa_downstream").length
      = (getCol df "dpf.diff_pressure_kpa_upstream").length) :
    dpf_signal_health_score (addCol df "dpf_delta_p"
        (List.zipWith (fun a b => a - b)
          (getCol df "dpf.diff_pressure_kpa_downstream")
          (getCol df "dpf.diff_pressure_kpa_upstream")))
      = dpf_signal_health_score (addCol df "dpf_delta_p"
        (List.zipWith (fun a b => a - b)
          (getCol df "dpf.diff_pressure_kpa_upstream")
          (getCol df "dpf.diff_pressure_kpa_downstream"))) ∧
    dpf_signal_health_score (addCol df "dpf_delta_p"
        (List.zipWith (fun a b => a - b)
          (getCol df "dpf.diff_pressure_kpa_downstream")
          (getCol df "dpf.diff_pressure_kpa_upstream")))
      = dpf_signal_health_score df ∧
    health_score_to_rul ((dpf_signal_health_score (addCol df "dpf_delta_p"
        (List.zipWith (fun a b => a - b)
          (getCol df "dpf.diff_pressure_kpa_downstream")
          (getCol df "dpf.diff_pressure_kpa_upstream"))) : ℚ) : ℝ)
      = health_score_to_rul ((dpf_signal_health_score (addCol df "dpf_delta_p"
        (List.zipWith (fun a b => a - b)
          (getCol df "dpf.diff_pressure_kpa_upstream")
          (getCol df "dpf.diff_pressure_kpa_downstream"))) : ℚ) : ℝ) := by
  have habs : |listMean (takeLast 288 (List.zipWith (fun a b => a - b)
        (getCol df "dpf.diff_pressure_kpa_upstream")
        (getCol df "dpf.diff_pressure_kpa_downstream")))|
      = |listMean (takeLast 288 (List.zipWith (fun a b => a - b)
        (getCol df "dpf.diff_pressure_kpa_downstream")
        (getCol df "dpf.diff_pressure_kpa_upstream")))| := by
    rw [zipWith_sub_swap (getCol df "dpf.diff_pressure_kpa_upstream")
        (getCol df "dpf.diff_pressure_kpa_downstream"),
      takeLast_map_neg, listMean_map_neg, abs_neg]
  have hAB : dpf_signal_health_score (addCol df "dpf_delta_p"
        (List.zipWith (fun a b => a - b)
          (getCol df "dpf.diff_pressure_kpa_downstream")
          (getCol df "dpf.diff_pressure_kpa_upstream")))
      = dpf_signal_health_score (addCol df "dpf_delta_p"
        (List.zipWith (fun a b => a - b)
          (getCol df "dpf.diff_pressure_kpa_upstream")
          (getCol df "dpf.diff_pressure_kpa_downstream"))) := by
    rw [dpf_health_addCol_delta df _ hnc, dpf_health_addCol_delta df _ hnc, habs]
  have hAdf : dpf_signal_health_score (addCol df "dpf_delta_p"
        (List.zipWith (fun a b => a - b)
          (getCol df "dpf.diff_pressure_kpa_downstream")
          (getCol df "dpf.diff_pressure_kpa_upstream")))
      = dpf_signal_health_score df := by
    rw [dpf_health_addCol_delta df _ hnc]
    unfold dpf_signal_health_score
    rw [dpf_dp_no_col df hnc, takeLast_zipWith_sub 288 _ _ hlen]
  exact ⟨hAB, hAdf, by rw [hAB]⟩

theorem c10_dpf_delta_sign_invariance_witness :
    (hasCol dfTest "dpf_delta_p" = false ∧
      (getCol dfTest "dpf.diff_pressure_kpa_downstream").length
        = (getCol dfTest "dpf.diff_pressure_kpa_upstream").length) ∧
    dpf_signal_health_score (addCol dfTest "dpf_delta_p"
        (List.zipWith (fun a b => a - b)
          (getCol dfTest "dpf.diff_pressure_kpa_downstream")
          (getCol dfTest "dpf.diff_pressure_kpa_upstream")))
      = dpf_signal_health_score (addCol dfTest "dpf_delta_p"
        (List.zipWith (fun a b => a - b)
          (getCol dfTest "dpf.diff_pressure_kpa_upstream")
          (getCol dfTest "dpf.diff_pressure_kpa_downstream"))) :=
  ⟨⟨by decide, by decide⟩,
    (c10_dpf_delta_sign_invariance dfTest (by decide) (by decide)).1⟩

/-! ## Decision fusion engine (`predict_all` in `unified_api.py`)

`ModelResult` mirrors the pydantic response model; the aggregation and the
priority-ordered decision branches are embedded as functions over the list of
per-subsystem results, with Python's `min`/`max` (first extremal element) and
dict semantics made explicit. -/

structure ModelResult where
  model : String
  rul_days : Option ℚ := none
  failure_probability : Option ℚ := none
  anomaly_score : Option ℚ := none
  is_anomaly : Option Bool := none
  status : String := "success"
  error : Option String := none
  details : Option (List (String × ℚ)) := none
deriving DecidableEq

/-- `r.rul_days` as used inside `predict_all` (only read when present). -/
def rulV (r : ModelResult) : ℚ := r.rul_days.getD 0

/-- `r.failure_probability` as used inside `predict_all`. -/
def fpV (r : ModelResult) : ℚ := r.failure_probability.getD 0

/-- Python dict lookup `d[k]` on an association list with unique keys. -/
def lookupDetail (d : List (String × ℚ)) (k : String) : Option ℚ :=
  (d.find? (fun p => p.1 == k)).map (fun p => p.2)

/-- `r.details["signal_health_score"]` guarded by
`r.details and "signal_health_score" in r.details`. -/
def healthLookup (r : ModelResult) : Option ℚ :=
  match r.details with
  | some d => lookupDetail d "signal_health_score"
  | none => none

/-- The stored signal health score of a successful subsystem result. -/
def healthV (r : ModelResult) : ℚ := (healthLookup r).getD 1

def isSuccess (r : ModelResult) : Bool := r.status == "success"

/-- `[r for r in results if r.status == "success" and r.rul_days is not None]`. -/
def rulModels (results : List ModelResult) : List ModelResult :=
  results.filter (fun r => isSuccess r && r.rul_days.isSome)

/-- `[r for r in results if r.status == "success" and r.failure_probability is not None]`. -/
def probModels (results : List ModelResult) : List ModelResult :=
  results.filter (fun r => isSuccess r && r.failure_probability.isSome)

/-- `[r for r in results if r.model == "anomaly" and r.status == "success"]`. -/
def anomalyOk (results : List ModelResult) : List ModelResult :=
  results.filter (fun r => r.model == "anomaly" && isSuccess r)

/-- Python `min(r :: rs, key=lambda r: r.rul_days)`: first minimal element. -/
def pyMinByRul (r : ModelResult) (rs : List ModelResult) : ModelResult :=
  rs.foldl (fun acc x => if rulV x < rulV acc then x else acc) r

/-- Python `max(r :: rs, key=lambda r: r.failure_probability)`: first maximal
element. -/
def pyMaxByProb (r : ModelResult) (rs : List ModelResult) : ModelResult :=
  rs.foldl (fun acc x => if fpV acc < fpV x then x else acc) r

/-- `worst = min(rul_models, key=lambda r: r.rul_days)` (only evaluated after
the emptiness guard). -/
def worstD (results : List ModelResult) : ModelResult :=
  match rulModels results with
  | [] => { model := "none", status := "error" }
  | r :: rs => pyMinByRul r rs

/-- `eta_days = worst.rul_days`. -/
def etaOf (results : List ModelResult) : ℚ := rulV (worstD results)

/-- `confidence = max((r.failure_probability for r in prob_models), default=0.5)`. -/
def confOf (results : List ModelResult) : ℚ :=
  match probModels results with
  | [] => 0.5
  | r :: rs => rs.foldl (fun m x => max m (fpV x)) (fpV r)

/-- `is_anomaly = bool(anomaly_res_ok and anomaly_res_ok[0].is_anomaly)`. -/
def isAnomOf (results : List ModelResult) : Bool :=
  match (anomalyOk results).head? with
  | some r => r.is_anomaly == some true
  | none => false

/-- `type_map = {"dpf": "dpf_failure", "scr": "scr_failure", "oil": "oil_failure"}`,
used through `type_map.get(m, dflt)`. -/
def typeMap (m dflt : String) : String :=
  if m == "dpf" then "dpf_failure"
  else if m == "scr" then "scr_failure"
  else if m == "oil" then "oil_failure"
  else dflt

/-- Python dict assignment `d[k] = v`: overwrite in place or append. -/
def dictInsert (d : List (String × ℚ)) (k : String) (v : ℚ) : List (String × ℚ) :=
  if d.any (fun p => p.1 == k) then d.map (fun p => if p.1 == k then (k, v) else p)
  else d ++ [(k, v)]

/-- `critical_by_rul = [r for r in rul_models if r.rul_days is not None and r.rul_days < 21]`. -/
def criticalByRul (rul_models : List ModelResult) : List ModelResult :=
  rul_models.filter (fun r => r.rul_days.isSome && decide (rulV r < 21))

/-- `critical_by_prob = [r for r in prob_models if r.failure_probability is not None and r.failure_probability >= 0.6]`. -/
def criticalByProb (prob_models : List ModelResult) : List ModelResult :=
  prob_models.filter (fun r => r.failure_probability.isSome && decide ((0.6:ℚ) ≤ fpV r))

/-- The `signal_health` dict: for `r` in `rul_models` with `r.rul_days < 70`
and a stored signal health score, `signal_health[r.model] = score`. -/
def signalHealthDict (rul_models : List ModelResult) : List (String × ℚ) :=
  rul_models.foldl (fun dict r =>
    if rulV r < 70 then
      match healthLookup r with
      | some h => dictInsert dict r.model h
      | none => dict
    else dict) []

/-- `degraded = [m for m, h in signal_health.items() if h < 0.85]`. -/
def degradedOf (rul_models : List ModelResult) : List String :=
  ((signalHealthDict rul_models).filter (fun p => decide (p.2 < 0.85))).map Prod.fst

/-- The failure-type selection of `predict_all` (the branch taken when neither
the anomaly override nor the healthy branch applies). -/
def failureType (rul_models prob_models : List ModelResult) (worst : ModelResult) : String :=
  if 2 ≤ (criticalByRul rul_models).length ∨ 2 ≤ (criticalByProb prob_models).length then
    "cascade_failure"
  else if degradedOf rul_models ≠ [] then
    match rul_models.filter (fun r => (degradedOf rul_models).contains r.model) with
    | [] => typeMap worst.model "cascade_failure"
    | m :: ms => typeMap (pyMinByRul m ms).model (typeMap worst.model "cascade_failure")
  else
    match prob_models with
    | [] => typeMap worst.model "cascade_failure"
    | p :: ps =>
      if (0.55:ℚ) ≤ fpV (pyMaxByProb p ps) then
        typeMap (pyMaxByProb p ps).model (typeMap worst.model "cascade_failure")
      else typeMap worst.model "cascade_failure"

structure UnifiedDecision where
  predictionType : String
  confidence : ℚ
  etaDays : ℚ
  is_anomaly : Bool
deriving DecidableEq

/-- The priority-ordered `prediction_type` decision of `predict_all`. -/
def predictionTypeOf (results : List ModelResult) : String :=
  if isAnomOf results = true ∧ 30 < etaOf results then "anomaly"
  else if 55 ≤ etaOf results then "healthy"
  else failureType (rulModels results) (probModels results) (worstD results)

/-- The anomaly confidence bump: `min(1.0, confidence + 0.1)` when flagged. -/
def confFinalOf (results : List ModelResult) : ℚ :=
  if isAnomOf results = true then min 1 (confOf results + 0.1) else confOf results

/-- The aggregation of `predict_all`: the 500 error when all RUL models
failed, otherwise the `UnifiedResponse` fields
(`confidence=round(min(confidence, 1.0), 4)`, `etaDays=round(eta_days, 2)`). -/
def predict_all_decision (results : List ModelResult) : Except String UnifiedDecision :=
  if rulModels results = [] then
    Except.error "All RUL models failed - cannot produce prediction"
  else
    Except.ok { predictionType := predictionTypeOf results,
                confidence := round4 (min (confFinalOf results) 1),
                etaDays := round2 (etaOf results),
                is_anomaly := isAnomOf results }

/-! ### The four per-request subsystem outcomes -/

/-- The data of a successful RUL subsystem call: corrected RUL, corrected
failure probability, stored signal health score, and the remaining raw
`details` entries (which precede `signal_health_score` in the dict). -/
structure OkData where
  rul : ℚ
  prob : ℚ
  health : ℚ
  raws : List (String × ℚ)
deriving DecidableEq

inductive SubOutcome where
  | ok (d : OkData)
  | err (msg : String)
deriving DecidableEq

/-- The `ModelResult` recorded by `predict_all` for one RUL subsystem:
the successful response of the per-model endpoint, or an errored record. -/
def SubOutcome.toResult (name : String) : SubOutcome → ModelResult
  | .ok d =>
      { model := name, rul_days := some d.rul, failure_probability := some d.prob,
        status := "success",
        details := some (d.raws ++ [("signal_health_score", d.health)]) }
  | .err msg => { model := name, status := "error", error := some msg }

def SubOutcome.isOk : SubOutcome → Bool
  | .ok _ => true
  | .err _ => false

inductive AnomOutcome where
  | ok (score : ℚ) (flag : Bool) (windowIndex : ℚ)
  | err (msg : String)
deriving DecidableEq

/-- The `ModelResult` recorded for the anomaly subsystem. -/
def AnomOutcome.toResult : AnomOutcome → ModelResult
  | .ok score flag wi =>
      { model := "anomaly", anomaly_score := some score, is_anomaly := some flag,
        status := "success",
        details := some [("window_index", wi), ("threshold", -0.105)] }
  | .err msg => { model := "anomaly", status := "error", error := some msg }

/-- The `results` list of `predict_all`: DPF, SCR, Oil, Anomaly in order. -/
def unified_results (d s o : SubOutcome) (a : AnomOutcome) : List ModelResult :=
  [d.toResult "dpf", s.toResult "scr", o.toResult "oil", a.toResult]

/-! ### Aggregation lemmas: the Python min/max folds -/

def listMinD : List ℚ → ℚ
  | [] => 0
  | x :: xs => xs.foldl min x

/-- The minimum `rul_days` across the successful RUL-producing results. -/
def minRulOf (results : List ModelResult) : ℚ :=
  listMinD ((rulModels results).map rulV)

lemma pyMinByRul_rulV (r : ModelResult) (rs : List ModelResult) :
    rulV (pyMinByRul r rs) = rs.foldl (fun m x => min m (rulV x)) (rulV r) := by
  induction rs generalizing r with
  | nil => rfl
  | cons x xs ih =>
    show rulV (pyMinByRul (if rulV x < rulV r then x else r) xs)
      = xs.foldl (fun m x => min m (rulV x)) (min (rulV r) (rulV x))
    rw [ih]
    congr 1
    split
    · rw [min_eq_right (le_of_lt (by assumption))]
    · rw [min_eq_left (not_lt.mp (by assumption))]

lemma etaOf_eq_minRulOf (results : List ModelResult) (h : rulModels results ≠ []) :
    etaOf results = minRulOf results := by
  unfold etaOf worstD minRulOf
  cases hr : rulModels results with
  | nil => exact absurd hr h
  | cons r rs =>
    show rulV (pyMinByRul r rs) = listMinD ((r :: rs).map rulV)
    rw [pyMinByRul_rulV]
    show _ = (rs.map rulV).foldl min (rulV r)
    rw [List.foldl_map]

lemma foldl_min_le_init (a : ℚ) (l : List ℚ) : l.foldl min a ≤ a := by
  induction l generalizing a with
  | nil => exact le_rfl
  | cons x xs ih => exact le_trans (ih (min a x)) (min_le_left a x)

lemma foldl_min_le_mem (a : ℚ) (l : List ℚ) : ∀ y ∈ l, l.foldl min a ≤ y := by
  induction l generalizing a with
  | nil => intro y hy; cases hy
  | cons x xs ih =>
    intro y hy
    cases hy with
    | head => exact le_trans (foldl_min_le_init (min a x) xs) (min_le_right a x)
    | tail _ hy => exact ih (min a x) y hy

lemma foldl_min_mem (a : ℚ) (l : List ℚ) : l.foldl min a = a ∨ l.foldl min a ∈ l := by
  induction l generalizing a with
  | nil => exact Or.inl rfl
  | cons x xs ih =>
    rcases ih (min a x) with h | h
    · rcases le_total a x with hax | hax
      · left
        show xs.foldl min (min a x) = a
        rw [h, min_eq_left hax]
      · right
        show xs.foldl min (min a x) ∈ x :: xs
        rw [h, min_eq_right hax]
        exact List.mem_cons_self x xs
    · exact Or.inr (List.mem_cons_of_mem x h)

lemma listMinD_mem (x : ℚ) (xs : List ℚ) : listMinD (x :: xs) ∈ x :: xs := by
  show xs.foldl min x ∈ x :: xs
  rcases foldl_min_mem x xs with h | h
  · rw [h]; exact List.mem_cons_self x xs
  · exact List.mem_cons_of_mem x h

lemma listMinD_le (x : ℚ) (xs : List ℚ) : ∀ y ∈ x :: xs, listMinD (x :: xs) ≤ y := by
  intro y hy
  cases hy with
  | head => exact foldl_min_le_init x xs
  | tail _ hy => exact foldl_min_le_mem x xs y hy

lemma foldl_max_init_le (a : ℚ) (l : List ℚ) : a ≤ l.foldl max a := by
  induction l generalizing a with
  | nil => exact le_rfl
  | cons x xs ih => exact le_trans (le_max_left a x) (ih (max a x))

lemma foldl_max_mem_le (a : ℚ) (l : List ℚ) : ∀ y ∈ l, y ≤ l.foldl max a := by
  induction l generalizing a with
  | nil => intro y hy; cases hy
  | cons x xs ih =>
    intro y hy
    cases hy with
    | head => exact le_trans (le_max_right a x) (foldl_max_init_le (max a x) xs)
    | tail _ hy => exact ih (max a x) y hy

lemma foldl_max_mem (a : ℚ) (l : List ℚ) : l.foldl max a = a ∨ l.foldl max a ∈ l := by
  induction l generalizing a with
  | nil => exact Or.inl rfl
  | cons x xs ih =>
    rcases ih (max a x) with h | h
    · rcases le_total a x with hax | hax
      · right
        show xs.foldl max (max a x) ∈ x :: xs
        rw [h, max_eq_right hax]
        exact List.mem_cons_self x xs
      · left
        show xs.foldl max (max a x) = a
        rw [h, max_eq_left hax]
    · exact Or.inr (List.mem_cons_of_mem x h)

/-! ### C1: the anomaly override -/

lemma predict_all_decision_ok (results : List ModelResult) (hne : rulModels results ≠ []) :
    predict_all_decision results
      = Except.ok { predictionType := predictionTypeOf results,
                    confidence := round4 (min (confFinalOf results) 1),
                    etaDays := round2 (etaOf results),
                    is_anomaly := isAnomOf results } := by
  unfold predict_all_decision
  rw [if_neg hne]

/-- C1: whenever the anomaly model succeeded and flagged an anomaly, the
unified decision is `"anomaly"` exactly when the minimum corrected
`rul_days` across the successful RUL subsystems exceeds 30 days; when that
minimum is 30 or less the override is skipped (and so is the healthy branch)
and the later failure-type branches decide. -/
theorem c1_anomaly_override (results : List ModelResult) (r : ModelResult)
    (hne : rulModels results ≠ [])
    (ha : (anomalyOk results).head? = some r)
    (hflag : r.is_anomaly = some true) :
    ∃ dec, predict_all_decision results = Except.ok dec ∧
      (30 < minRulOf results → dec.predictionType = "anomaly") ∧
      (minRulOf results ≤ 30 →
        dec.predictionType
          = failureType (rulModels results) (probModels results) (worstD results)) := by
  have hanom : isAnomOf results = true := by
    unfold isAnomOf
    rw [ha]
    show (r.is_anomaly == some true) = true
    rw [hflag]
    rfl
  have heta := etaOf_eq_minRulOf results hne
  refine ⟨_, predict_all_decision_ok results hne, ?_, ?_⟩
  · intro h30
    show predictionTypeOf results = "anomaly"
    unfold predictionTypeOf
    rw [if_pos ⟨hanom, by rw [heta]; exact h30⟩]
  · intro hle
    show predictionTypeOf results
      = failureType (rulModels results) (probModels results) (worstD results)
    unfold predictionTypeOf
    rw [if_neg (by
        rintro ⟨-, hgt⟩
        rw [heta] at hgt
        exact absurd hgt (not_lt.mpr hle)),
      if_neg (by
        rw [heta]
        intro h55
        exact absurd (le_trans h55 hle) (by norm_num))]

theorem c1_anomaly_override_witness :
    ∃ dec, predict_all_decision
        (unified_results (.ok ⟨40, 0.5, 0.9, []⟩) (.err "SCR failed") (.err "Oil failed")
          (.ok (-0.2) true 0))
      = Except.ok dec ∧
      (30 < minRulOf (unified_results (.ok ⟨40, 0.5, 0.9, []⟩) (.err "SCR failed")
          (.err "Oil failed") (.ok (-0.2) true 0)) → dec.predictionType = "anomaly") ∧
      (minRulOf (unified_results (.ok ⟨40, 0.5, 0.9, []⟩) (.err "SCR failed")
          (.err "Oil failed") (.ok (-0.2) true 0)) ≤ 30 →
        dec.predictionType = failureType
          (rulModels (unified_results (.ok ⟨40, 0.5, 0.9, []⟩) (.err "SCR failed")
            (.err "Oil failed") (.ok (-0.2) true 0)))
          (probModels (unified_results (.ok ⟨40, 0.5, 0.9, []⟩) (.err "SCR failed")
            (.err "Oil failed") (.ok (-0.2) true 0)))
          (worstD (unified_results (.ok ⟨40, 0.5, 0.9, []⟩) (.err "SCR failed")
            (.err "Oil failed") (.ok (-0.2) true 0)))) :=
  c1_anomaly_override _ ((AnomOutcome.ok (-0.2) true 0).toResult)
    (by decide) rfl rfl

/-! ### C2: etaDays and confidence aggregation, and the all-healthy case -/

set_option maxRecDepth 8000

lemma round2_ratInt (z : ℤ) : round2 ((z : ℚ)) = (z : ℚ) := roundDec_intCast 2 z

lemma minRulOf_isDec (results : List ModelResult) (hne : rulModels results ≠ [])
    (hr2 : ∀ r ∈ rulModels results, IsDec 2 (rulV r)) : IsDec 2 (minRulOf results) := by
  unfold minRulOf
  cases hr : rulModels results with
  | nil => exact absurd hr hne
  | cons r rs =>
    have hmem := listMinD_mem (rulV r) (rs.map rulV)
    rw [show rulV r :: rs.map rulV = (r :: rs).map rulV from rfl] at hmem
    obtain ⟨r', hr', hval⟩ := List.mem_map.mp hmem
    rw [← hval]
    exact hr2 r' (hr ▸ hr')

lemma confOf_eq_foldl (results : List ModelResult) (r : ModelResult) (rs : List ModelResult)
    (hr : probModels results = r :: rs) :
    confOf results = rs.foldl (fun m x => max m (fpV x)) (fpV r) := by
  unfold confOf
  rw [hr]

lemma confOf_mem (results : List ModelResult) (hp : probModels results ≠ []) :
    ∃ r' ∈ probModels results, confOf results = fpV r' := by
  cases hr : probModels results with
  | nil => exact absurd hr hp
  | cons r rs =>
    rw [confOf_eq_foldl results r rs hr,
      ← List.foldl_map fpV max rs (fpV r)]
    rcases foldl_max_mem (fpV r) (rs.map fpV) with h | h
    · exact ⟨r, List.mem_cons_self r rs, h⟩
    · obtain ⟨r', hr', hval⟩ := List.mem_map.mp h
      exact ⟨r', List.mem_cons_of_mem r hr', hval.symm⟩

lemma confOf_ge (results : List ModelResult) (hp : probModels results ≠ []) :
    ∀ r ∈ probModels results, fpV r ≤ confOf results := by
  cases hr : probModels results with
  | nil => exact absurd hr hp
  | cons r rs =>
    intro y hy
    rw [confOf_eq_foldl results r rs hr, ← List.foldl_map fpV max rs (fpV r)]
    cases hy with
    | head => exact foldl_max_init_le (fpV r) (rs.map fpV)
    | tail _ hy =>
      exact foldl_max_mem_le (fpV r) (rs.map fpV) (fpV y) (List.mem_map_of_mem fpV hy)

lemma isDec4_pointOne : IsDec 4 (0.1 : ℚ) := ⟨1000, by norm_num⟩

lemma healthy_all_90 (p1 p2 p3 h1 h2 h3 : ℚ) (e1 e2 e3 : List (String × ℚ)) (sc wi : ℚ) :
    ∃ dec, predict_all_decision (unified_results (.ok ⟨90, p1, h1, e1⟩) (.ok ⟨90, p2, h2, e2⟩)
        (.ok ⟨90, p3, h3, e3⟩) (.ok sc false wi)) = Except.ok dec ∧
      dec.predictionType = "healthy" ∧ dec.etaDays = 90 ∧ dec.is_anomaly = false := by
  have hne : rulModels (unified_results (.ok ⟨90, p1, h1, e1⟩) (.ok ⟨90, p2, h2, e2⟩)
      (.ok ⟨90, p3, h3, e3⟩) (.ok sc false wi)) ≠ [] := by
    simp [unified_results, rulModels, SubOutcome.toResult, AnomOutcome.toResult, isSuccess]
  have heta : etaOf (unified_results (.ok ⟨90, p1, h1, e1⟩) (.ok ⟨90, p2, h2, e2⟩)
      (.ok ⟨90, p3, h3, e3⟩) (.ok sc false wi)) = 90 := by
    simp [etaOf, worstD, unified_results, rulModels, SubOutcome.toResult, AnomOutcome.toResult,
      isSuccess, pyMinByRul, rulV]
  have hanom : isAnomOf (unified_results (.ok ⟨90, p1, h1, e1⟩) (.ok ⟨90, p2, h2, e2⟩)
      (.ok ⟨90, p3, h3, e3⟩) (.ok sc false wi)) = false := by
    simp [isAnomOf, anomalyOk, unified_results, SubOutcome.toResult, AnomOutcome.toResult,
      isSuccess]
  have hpt : predictionTypeOf (unified_results (.ok ⟨90, p1, h1, e1⟩) (.ok ⟨90, p2, h2, e2⟩)
      (.ok ⟨90, p3, h3, e3⟩) (.ok sc false wi)) = "healthy" := by
    unfold predictionTypeOf
    rw [if_neg (by rw [hanom]; rintro ⟨h, -⟩; cases h), if_pos (by rw [heta]; norm_num)]
  have heta2 : round2 (etaOf (unified_results (.ok ⟨90, p1, h1, e1⟩) (.ok ⟨90, p2, h2, e2⟩)
      (.ok ⟨90, p3, h3, e3⟩) (.ok sc false wi))) = 90 := by
    rw [heta, show (90:ℚ) = ((90:ℤ):ℚ) by norm_num, round2_ratInt]
  exact ⟨_, predict_all_decision_ok _ hne, hpt, heta2, hanom⟩

/-- C2: the returned `etaDays` is the minimum `rul_days` across the
successful RUL-producing results, the returned `confidence` is the maximum
`failure_probability` across the successful probability-producing results,
bumped by `0.1` and capped at `1.0` exactly when an anomaly is flagged (all
stored values being exact 2- resp. 4-decimal numbers in `[0,1]`); and when
all three RUL subsystems report `rul_days = 90` and anomaly is false, the
prediction is `"healthy"` with `etaDays = 90`. -/
theorem c2_eta_confidence (results : List ModelResult)
    (hne : rulModels results ≠ []) (hp : probModels results ≠ [])
    (hr2 : ∀ r ∈ rulModels results, IsDec 2 (rulV r))
    (hp4 : ∀ r ∈ probModels results, IsDec 4 (fpV r) ∧ 0 ≤ fpV r ∧ fpV r ≤ 1) :
    (∃ dec, predict_all_decision results = Except.ok dec ∧
      dec.etaDays = minRulOf results ∧
      (∀ r ∈ probModels results, fpV r ≤ confOf results) ∧
      dec.confidence = (if isAnomOf results = true then min 1 (confOf results + 0.1)
        else confOf results)) ∧
    (∀ (p1 p2 p3 h1 h2 h3 : ℚ) (e1 e2 e3 : List (String × ℚ)) (sc wi : ℚ),
      ∃ dec, predict_all_decision (unified_results (.ok ⟨90, p1, h1, e1⟩)
          (.ok ⟨90, p2, h2, e2⟩) (.ok ⟨90, p3, h3, e3⟩) (.ok sc false wi))
        = Except.ok dec ∧ dec.predictionType = "healthy" ∧ dec.etaDays = 90) := by
  constructor
  · obtain ⟨rM, hrM, hMval⟩ := confOf_mem results hp
    have hM4 : IsDec 4 (confOf results) := hMval ▸ (hp4 rM hrM).1
    have hM1 : confOf results ≤ 1 := hMval ▸ (hp4 rM hrM).2.2
    refine ⟨_, predict_all_decision_ok results hne, ?_, confOf_ge results hp, ?_⟩
    · show round2 (etaOf results) = minRulOf results
      rw [etaOf_eq_minRulOf results hne]
      exact (minRulOf_isDec results hne hr2).roundDec_eq
    · show round4 (min (confFinalOf results) 1) = _
      by_cases ha : isAnomOf results = true
      · have hcf : confFinalOf results = min 1 (confOf results + 0.1) := by
          simp [confFinalOf, ha]
        rw [hcf, if_pos ha]
        have hle1 : min 1 (confOf results + 0.1) ≤ (1:ℚ) := min_le_left _ _
        rw [min_eq_left hle1]
        exact ((IsDec_one 4).min (hM4.add isDec4_pointOne)).roundDec_eq
      · have hcf : confFinalOf results = confOf results := by
          simp [confFinalOf, ha]
        rw [hcf, if_neg ha, min_eq_left hM1]
        exact hM4.roundDec_eq
  · intro p1 p2 p3 h1 h2 h3 e1 e2 e3 sc wi
    obtain ⟨dec, hdec, hpt, heta, -⟩ := healthy_all_90 p1 p2 p3 h1 h2 h3 e1 e2 e3 sc wi
    exact ⟨dec, hdec, hpt, heta⟩

theorem c2_eta_confidence_witness :
    (rulModels (unified_results (.ok ⟨40, 0.5, 0.9, []⟩) (.err "SCR down")
        (.ok ⟨60, 0.25, 0.95, []⟩) (.err "anomaly down")) ≠ [] ∧
      probModels (unified_results (.ok ⟨40, 0.5, 0.9, []⟩) (.err "SCR down")
        (.ok ⟨60, 0.25, 0.95, []⟩) (.err "anomaly down")) ≠ []) ∧
    (∃ dec, predict_all_decision (unified_results (.ok ⟨40, 0.5, 0.9, []⟩) (.err "SCR down")
        (.ok ⟨60, 0.25, 0.95, []⟩) (.err "anomaly down")) = Except.ok dec ∧
      dec.etaDays = minRulOf (unified_results (.ok ⟨40, 0.5, 0.9, []⟩) (.err "SCR down")
        (.ok ⟨60, 0.25, 0.95, []⟩) (.err "anomaly down")) ∧
      (∀ r ∈ probModels (unified_results (.ok ⟨40, 0.5, 0.9, []⟩) (.err "SCR down")
          (.ok ⟨60, 0.25, 0.95, []⟩) (.err "anomaly down")),
        fpV r ≤ confOf (unified_results (.ok ⟨40, 0.5, 0.9, []⟩) (.err "SCR down")
          (.ok ⟨60, 0.25, 0.95, []⟩) (.err "anomaly down"))) ∧
      dec.confidence = (if isAnomOf (unified_results (.ok ⟨40, 0.5, 0.9, []⟩) (.err "SCR down")
          (.ok ⟨60, 0.25, 0.95, []⟩) (.err "anomaly down")) = true
        then min 1 (confOf (unified_results (.ok ⟨40, 0.5, 0.9, []⟩) (.err "SCR down")
          (.ok ⟨60, 0.25, 0.95, []⟩) (.err "anomaly down")) + 0.1)
        else confOf (unified_results (.ok ⟨40, 0.5, 0.9, []⟩) (.err "SCR down")
          (.ok ⟨60, 0.25, 0.95, []⟩) (.err "anomaly down")))) := by
  refine ⟨⟨by decide, by decide⟩, ?_⟩
  refine (c2_eta_confidence _ (by decide) (by decide) ?_ ?_).1
  · intro r hr
    have heq : rulModels (unified_results (.ok ⟨40, 0.5, 0.9, []⟩) (.err "SCR down")
        (.ok ⟨60, 0.25, 0.95, []⟩) (.err "anomaly down"))
        = [(SubOutcome.ok ⟨40, 0.5, 0.9, []⟩).toResult "dpf",
           (SubOutcome.ok ⟨60, 0.25, 0.95, []⟩).toResult "oil"] := rfl
    rw [heq] at hr
    simp only [List.mem_cons, List.not_mem_nil, or_false] at hr
    rcases hr with rfl | rfl
    · exact ⟨4000, by norm_num [rulV, SubOutcome.toResult]⟩
    · exact ⟨6000, by norm_num [rulV, SubOutcome.toResult]⟩
  · intro r hr
    have heq : probModels (unified_results (.ok ⟨40, 0.5, 0.9, []⟩) (.err "SCR down")
        (.ok ⟨60, 0.25, 0.95, []⟩) (.err "anomaly down"))
        = [(SubOutcome.ok ⟨40, 0.5, 0.9, []⟩).toResult "dpf",
           (SubOutcome.ok ⟨60, 0.25, 0.95, []⟩).toResult "oil"] := rfl
    rw [heq] at hr
    simp only [List.mem_cons, List.not_mem_nil, or_false] at hr
    rcases hr with rfl | rfl
    · exact ⟨⟨5000, by norm_num [fpV, SubOutcome.toResult]⟩,
        by norm_num [fpV, SubOutcome.toResult], by norm_num [fpV, SubOutcome.toResult]⟩
    · exact ⟨⟨2500, by norm_num [fpV, SubOutcome.toResult]⟩,
        by norm_num [fpV, SubOutcome.toResult], by norm_num [fpV, SubOutcome.toResult]⟩

/-! ### C3: the cascade-failure branch -/

@[simp] lemma rulV_toResult_ok (n : String) (d : OkData) :
    rulV ((SubOutcome.ok d).toResult n) = d.rul := rfl

@[simp] lemma fpV_toResult_ok (n : String) (d : OkData) :
    fpV ((SubOutcome.ok d).toResult n) = d.prob := rfl

@[simp] lemma model_toResult (n : String) (oc : SubOutcome) :
    (oc.toResult n).model = n := by cases oc <;> rfl

lemma cascade_of_counts (results : List ModelResult)
    (hne : rulModels results ≠ [])
    (hA : ¬(isAnomOf results = true ∧ 30 < etaOf results))
    (hH : ¬(55 ≤ etaOf results))
    (hC : 2 ≤ (criticalByRul (rulModels results)).length
      ∨ 2 ≤ (criticalByProb (probModels results)).length) :
    ∃ dec, predict_all_decision results = Except.ok dec ∧
      dec.predictionType = "cascade_failure" := by
  have hpt : predictionTypeOf results = "cascade_failure" := by
    unfold predictionTypeOf failureType
    rw [if_neg hA, if_neg hH, if_pos hC]
  exact ⟨_, predict_all_decision_ok results hne, hpt⟩

/-- C3: when neither the anomaly override nor the healthy branch applies, if
at least two successful subsystems have `rul_days < 21` or at least two have
`failure_probability >= 0.6`, the prediction is `"cascade_failure"`; in
particular two RUL subsystems both reporting `rul_days = 15` force
`"cascade_failure"` whatever the third subsystem and the anomaly model did. -/
theorem c3_cascade_failure (results : List ModelResult)
    (hne : rulModels results ≠ [])
    (hA : ¬(isAnomOf results = true ∧ 30 < etaOf results))
    (hH : ¬(55 ≤ etaOf results))
    (hC : 2 ≤ (criticalByRul (rulModels results)).length
      ∨ 2 ≤ (criticalByProb (probModels results)).length) :
    (∃ dec, predict_all_decision results = Except.ok dec ∧
      dec.predictionType = "cascade_failure") ∧
    (∀ (d1 d2 : OkData) (o : SubOutcome) (a : AnomOutcome), d1.rul = 15 → d2.rul = 15 →
      ∃ dec, predict_all_decision (unified_results (.ok d1) (.ok d2) o a) = Except.ok dec ∧
        dec.predictionType = "cascade_failure") := by
  refine ⟨cascade_of_counts results hne hA hH hC, ?_⟩
  intro d1 d2 o a h1 h2
  have hne2 : rulModels (unified_results (.ok d1) (.ok d2) o a) ≠ [] := by
    cases o <;> cases a <;>
      simp [unified_results, rulModels, SubOutcome.toResult, AnomOutcome.toResult, isSuccess]
  have heta_le : etaOf (unified_results (.ok d1) (.ok d2) o a) ≤ 15 := by
    cases o with
    | ok d3 =>
      have hrm : rulModels (unified_results (.ok d1) (.ok d2) (.ok d3) a)
          = [(SubOutcome.ok d1).toResult "dpf", (SubOutcome.ok d2).toResult "scr",
             (SubOutcome.ok d3).toResult "oil"] := by
        cases a <;>
          simp [unified_results, rulModels, SubOutcome.toResult, AnomOutcome.toResult, isSuccess]
      unfold etaOf worstD
      rw [hrm]
      show rulV (pyMinByRul _ _) ≤ 15
      rw [pyMinByRul_rulV]
      simp [h1, h2]
    | err msg =>
      have hrm : rulModels (unified_results (.ok d1) (.ok d2) (.err msg) a)
          = [(SubOutcome.ok d1).toResult "dpf", (SubOutcome.ok d2).toResult "scr"] := by
        cases a <;>
          simp [unified_results, rulModels, SubOutcome.toResult, AnomOutcome.toResult, isSuccess]
      unfold etaOf worstD
      rw [hrm]
      show rulV (pyMinByRul _ _) ≤ 15
      rw [pyMinByRul_rulV]
      simp [h1, h2]
  have hcrit : 2 ≤ (criticalByRul (rulModels (unified_results (.ok d1) (.ok d2) o a))).length := by
    cases o with
    | ok d3 =>
      have hrm : rulModels (unified_results (.ok d1) (.ok d2) (.ok d3) a)
          = [(SubOutcome.ok d1).toResult "dpf", (SubOutcome.ok d2).toResult "scr",
             (SubOutcome.ok d3).toResult "oil"] := by
        cases a <;>
          simp [unified_results, rulModels, SubOutcome.toResult, AnomOutcome.toResult, isSuccess]
      rw [hrm]
      norm_num [criticalByRul, rulV, SubOutcome.toResult, h1, h2, List.filter]
      try omega
    | err msg =>
      have hrm : rulModels (unified_results (.ok d1) (.ok d2) (.err msg) a)
          = [(SubOutcome.ok d1).toResult "dpf", (SubOutcome.ok d2).toResult "scr"] := by
        cases a <;>
          simp [unified_results, rulModels, SubOutcome.toResult, AnomOutcome.toResult, isSuccess]
      rw [hrm]
      norm_num [criticalByRul, rulV, SubOutcome.toResult, h1, h2, List.filter]
  exact cascade_of_counts _ hne2
    (by rintro ⟨-, hgt⟩; exact absurd (lt_of_lt_of_le hgt heta_le) (by norm_num))
    (by intro h55; exact absurd (le_trans h55 heta_le) (by norm_num))
    (Or.inl hcrit)

theorem c3_cascade_failure_witness :
    (rulModels (unified_results (.ok ⟨15, 0.5, 0.3, []⟩) (.ok ⟨15, 0.5, 0.3, []⟩)
        (.ok ⟨90, 0.5, 1, []⟩) (.err "anomaly down")) ≠ [] ∧
      ¬(isAnomOf (unified_results (.ok ⟨15, 0.5, 0.3, []⟩) (.ok ⟨15, 0.5, 0.3, []⟩)
          (.ok ⟨90, 0.5, 1, []⟩) (.err "anomaly down")) = true ∧
        30 < etaOf (unified_results (.ok ⟨15, 0.5, 0.3, []⟩) (.ok ⟨15, 0.5, 0.3, []⟩)
          (.ok ⟨90, 0.5, 1, []⟩) (.err "anomaly down"))) ∧
      ¬(55 ≤ etaOf (unified_results (.ok ⟨15, 0.5, 0.3, []⟩) (.ok ⟨15, 0.5, 0.3, []⟩)
          (.ok ⟨90, 0.5, 1, []⟩) (.err "anomaly down")))) ∧
    (∃ dec, predict_all_decision (unified_results (.ok ⟨15, 0.5, 0.3, []⟩)
        (.ok ⟨15, 0.5, 0.3, []⟩) (.ok ⟨90, 0.5, 1, []⟩) (.err "anomaly down"))
      = Except.ok dec ∧ dec.predictionType = "cascade_failure") :=
  ⟨⟨by decide, by decide, by decide⟩,
    (c3_cascade_failure (unified_results (.ok ⟨15, 0.5, 0.3, []⟩) (.ok ⟨15, 0.5, 0.3, []⟩)
        (.ok ⟨90, 0.5, 1, []⟩) (.err "anomaly down"))
      (by decide) (by decide) (by decide) (Or.inl (by decide))).1⟩

/-! ### C8: errored subsystems are recorded and excluded; partial success -/

lemma rulModels_filter_isSuccess (l : List ModelResult) :
    rulModels (l.filter isSuccess) = rulModels l := by
  unfold rulModels
  rw [List.filter_filter]
  apply List.filter_congr
  intro r _
  cases hs : isSuccess r <;> simp [hs]

lemma probModels_filter_isSuccess (l : List ModelResult) :
    probModels (l.filter isSuccess) = probModels l := by
  unfold probModels
  rw [List.filter_filter]
  apply List.filter_congr
  intro r _
  cases hs : isSuccess r <;> simp [hs]

lemma anomalyOk_filter_isSuccess (l : List ModelResult) :
    anomalyOk (l.filter isSuccess) = anomalyOk l := by
  unfold anomalyOk
  rw [List.filter_filter]
  apply List.filter_congr
  intro r _
  cases hs : isSuccess r <;> simp [hs]

lemma decision_filter_isSuccess (results : List ModelResult) :
    predict_all_decision (results.filter isSuccess) = predict_all_decision results := by
  unfold predict_all_decision predictionTypeOf confFinalOf etaOf confOf isAnomOf worstD
  rw [rulModels_filter_isSuccess, probModels_filter_isSuccess, anomalyOk_filter_isSuccess]

lemma decision_ok_iff (results : List ModelResult) :
    (∃ dec, predict_all_decision results = Except.ok dec) ↔ rulModels results ≠ [] := by
  unfold predict_all_decision
  by_cases h : rulModels results = []
  · rw [if_pos h]
    simp [h]
  · rw [if_neg h]
    simp [h]

lemma rulModels_unified_ne_iff (d s o : SubOutcome) (a : AnomOutcome) :
    rulModels (unified_results d s o a) ≠ []
      ↔ (d.isOk = true ∨ s.isOk = true ∨ o.isOk = true) := by
  cases d <;> cases s <;> cases o <;> cases a <;>
    simp [unified_results, rulModels, SubOutcome.toResult, SubOutcome.isOk,
      AnomOutcome.toResult, isSuccess]

/-- C8: an errored subsystem call is recorded as a `ModelResult` with
`status = "error"` and no `rul_days`/`failure_probability`; errored results
are excluded from every aggregate (filtering the results down to the
successful ones leaves the whole decision unchanged, and the recorded error
messages never influence it or the other entries); and a unified decision
exists exactly when at least one of the three RUL-producing subsystems
succeeded. -/
theorem c8_error_isolation :
    (∀ (name msg : String), ((SubOutcome.err msg).toResult name).status = "error"
      ∧ ((SubOutcome.err msg).toResult name).rul_days = none
      ∧ ((SubOutcome.err msg).toResult name).failure_probability = none
      ∧ ((SubOutcome.err msg).toResult name).error = some msg
      ∧ ((AnomOutcome.err msg).toResult).status = "error") ∧
    (∀ (d s o : SubOutcome) (a : AnomOutcome),
      (∃ dec, predict_all_decision (unified_results d s o a) = Except.ok dec)
        ↔ (d.isOk = true ∨ s.isOk = true ∨ o.isOk = true)) ∧
    (∀ results : List ModelResult,
      predict_all_decision (results.filter isSuccess) = predict_all_decision results) ∧
    (∀ (m1 m2 : String) (s o : SubOutcome) (a : AnomOutcome),
      predict_all_decision (unified_results (.err m1) s o a)
        = predict_all_decision (unified_results (.err m2) s o a)
      ∧ (unified_results (.err m1) s o a).tail = (unified_results (.err m2) s o a).tail) ∧
    (∀ (m1 m2 : String) (d s : SubOutcome) (a : AnomOutcome),
      predict_all_decision (unified_results d s (.err m1) a)
        = predict_all_decision (unified_results d s (.err m2) a)) ∧
    (∀ (m1 m2 : String) (d s o : SubOutcome),
      predict_all_decision (unified_results d s o (.err m1))
        = predict_all_decision (unified_results d s o (.err m2))) := by
  refine ⟨fun name msg => ⟨rfl, rfl, rfl, rfl, rfl⟩, ?_, decision_filter_isSuccess, ?_, ?_, ?_⟩
  · intro d s o a
    rw [decision_ok_iff]
    exact rulModels_unified_ne_iff d s o a
  · intro m1 m2 s o a
    refine ⟨?_, rfl⟩
    rw [← decision_filter_isSuccess (unified_results (.err m1) s o a),
      ← decision_filter_isSuccess (unified_results (.err m2) s o a)]
    congr 1
  · intro m1 m2 d s a
    rw [← decision_filter_isSuccess (unified_results d s (.err m1) a),
      ← decision_filter_isSuccess (unified_results d s (.err m2) a)]
    congr 1
  · intro m1 m2 d s o
    rw [← decision_filter_isSuccess (unified_results d s o (.err m1)),
      ← decision_filter_isSuccess (unified_results d s o (.err m2))]
    congr 1

/-! ### C4: the degraded-signal preference, probability fallback and default -/

/-- The spec-side selection: successful RUL results with `rul_days < 70` and a
stored health score below `0.85`. -/
def specDegraded (results : List ModelResult) : List ModelResult :=
  (rulModels results).filter (fun r => decide (rulV r < 70) && decide (healthV r < 0.85))

lemma dictInsert_append (d : List (String × ℚ)) (k : String) (v : ℚ)
    (h : ∀ p ∈ d, p.1 ≠ k) : dictInsert d k v = d ++ [(k, v)] := by
  unfold dictInsert
  rw [if_neg]
  rw [Bool.not_eq_true, List.any_eq_false]
  intro p hp
  simp [h p hp]

lemma healthLookup_eq_healthV (r : ModelResult) (h : (healthLookup r).isSome) :
    healthLookup r = some (healthV r) := by
  cases hl : healthLookup r with
  | none => rw [hl] at h; cases h
  | some x => rw [healthV, hl]; rfl

lemma signalHealthDict_go (rm : List ModelResult) (dict : List (String × ℚ))
    (hnd : (rm.map (fun r => r.model)).Nodup)
    (hdisj : ∀ p ∈ dict, ∀ r ∈ rm, p.1 ≠ r.model)
    (hsome : ∀ r ∈ rm, (healthLookup r).isSome) :
    rm.foldl (fun dict r =>
        if rulV r < 70 then
          match healthLookup r with
          | some h => dictInsert dict r.model h
          | none => dict
        else dict) dict
      = dict ++ (rm.filter (fun r => decide (rulV r < 70))).map (fun r => (r.model, healthV r)) := by
  induction rm generalizing dict with
  | nil => simp
  | cons r rm' ih =>
    simp only [List.map_cons, List.nodup_cons] at hnd
    have hr70 : _ ∨ _ := em (rulV r < 70)
    rcases hr70 with h70 | h70
    · rw [List.foldl_cons, if_pos h70, healthLookup_eq_healthV r (hsome r (List.mem_cons_self r rm'))]
      show rm'.foldl _ (dictInsert dict r.model (healthV r)) = _
      rw [dictInsert_append dict r.model (healthV r)
          (fun p hp => hdisj p hp r (List.mem_cons_self r rm'))]
      rw [ih (dict ++ [(r.model, healthV r)]) hnd.2 ?_ (fun r' hr' => hsome r' (List.mem_cons_of_mem r hr'))]
      · rw [List.filter_cons_of_pos (by simp [h70]), List.map_cons]
        simp
      · intro p hp r' hr'
        rcases List.mem_append.mp hp with hp | hp
        · exact hdisj p hp r' (List.mem_cons_of_mem r hr')
        · simp only [List.mem_singleton] at hp
          subst hp
          intro hmodel
          refine hnd.1 ?_
          rw [show r.model = r'.model from hmodel]
          exact List.mem_map_of_mem (fun r => r.model) hr'
    · rw [List.foldl_cons, if_neg h70]
      rw [ih dict hnd.2 (fun p hp r' hr' => hdisj p hp r' (List.mem_cons_of_mem r hr'))
        (fun r' hr' => hsome r' (List.mem_cons_of_mem r hr'))]
      rw [List.filter_cons_of_neg (by simp [h70])]

lemma signalHealthDict_eq (rm : List ModelResult)
    (hnd : (rm.map (fun r => r.model)).Nodup)
    (hsome : ∀ r ∈ rm, (healthLookup r).isSome) :
    signalHealthDict rm
      = (rm.filter (fun r => decide (rulV r < 70))).map (fun r => (r.model, healthV r)) := by
  unfold signalHealthDict
  rw [signalHealthDict_go rm [] hnd (by intro p hp; cases hp) hsome]
  rfl

lemma degradedOf_eq (rm : List ModelResult)
    (hnd : (rm.map (fun r => r.model)).Nodup)
    (hsome : ∀ r ∈ rm, (healthLookup r).isSome) :
    degradedOf rm
      = (rm.filter (fun r => decide (rulV r < 70) && decide (healthV r < 0.85))).map
          (fun r => r.model) := by
  unfold degradedOf
  rw [signalHealthDict_eq rm hnd hsome, List.filter_map, List.map_map]
  rw [List.filter_filter]
  apply congrArg
  apply List.filter_congr
  intro r _
  simp only [Function.comp]
  rw [Bool.and_comm]

lemma nodup_map_inj {l : List ModelResult}
    (h : (l.map (fun r => r.model)).Nodup) :
    ∀ x ∈ l, ∀ y ∈ l, x.model = y.model → x = y := by
  induction l with
  | nil => intro x hx; cases hx
  | cons z l' ih =>
    simp only [List.map_cons, List.nodup_cons] at h
    intro x hx y hy hxy
    cases hx with
    | head =>
      cases hy with
      | head => rfl
      | tail _ hy =>
        exact absurd (hxy ▸ List.mem_map_of_mem (fun r => r.model) hy) h.1
    | tail _ hx =>
      cases hy with
      | head =>
        exact absurd (hxy ▸ List.mem_map_of_mem (fun r => r.model) hx) h.1
      | tail _ hy => exact ih h.2 x hx y hy hxy

lemma filter_contains_degraded (rm : List ModelResult)
    (hnd : (rm.map (fun r => r.model)).Nodup)
    (hsome : ∀ r ∈ rm, (healthLookup r).isSome) :
    rm.filter (fun r => (degradedOf rm).contains r.model)
      = rm.filter (fun r => decide (rulV r < 70) && decide (healthV r < 0.85)) := by
  rw [degradedOf_eq rm hnd hsome]
  apply List.filter_congr
  intro r hr
  by_cases hmem : r ∈ rm.filter (fun r => decide (rulV r < 70) && decide (healthV r < 0.85))
  · have h1 : ((rm.filter (fun r => decide (rulV r < 70) && decide (healthV r < 0.85))).map
        (fun r => r.model)).contains r.model = true := by
      rw [List.elem_iff]
      exact List.mem_map_of_mem (fun r => r.model) hmem
    rw [h1]
    exact ((List.mem_filter.mp hmem).2).symm
  · have h1 : ((rm.filter (fun r => decide (rulV r < 70) && decide (healthV r < 0.85))).map
        (fun r => r.model)).contains r.model = false := by
      rw [Bool.eq_false_iff]
      intro hcon
      rw [List.elem_iff] at hcon
      obtain ⟨r2, hr2, hmod⟩ := List.mem_map.mp hcon
      have hr2mem : r2 ∈ rm := (List.mem_filter.mp hr2).1
      exact hmem (nodup_map_inj hnd r2 hr2mem r hr hmod ▸ hr2)
    rw [h1]
    symm
    rw [Bool.eq_false_iff]
    intro hc
    exact hmem (List.mem_filter.mpr ⟨hr, hc⟩)

lemma pyMinByRul_eq_of_unique (m : ModelResult) (ms : List ModelResult) (x : ModelResult)
    (hx : x ∈ m :: ms) (hmin : ∀ y ∈ m :: ms, rulV x < rulV y ∨ y = x) :
    pyMinByRul m ms = x := by
  induction ms generalizing m with
  | nil =>
    simp only [List.mem_singleton] at hx
    subst hx
    rfl
  | cons z ms' ih =>
    have hzmem : z ∈ m :: z :: ms' := List.mem_cons_of_mem m (List.mem_cons_self z ms')
    have hmmem : m ∈ m :: z :: ms' := List.mem_cons_self m (z :: ms')
    show pyMinByRul (if rulV z < rulV m then z else m) ms' = x
    apply ih
    · rcases List.mem_cons.mp hx with hxm | hx2
      · by_cases hzm : rulV z < rulV m
        · rw [if_pos hzm]
          rcases hmin z hzmem with hlt | heq
          · rw [hxm] at hlt
            exact absurd hzm (lt_asymm hlt)
          · rw [heq]
            exact List.mem_cons_self x ms'
        · rw [if_neg hzm, hxm]
          exact List.mem_cons_self m ms'
      · rcases List.mem_cons.mp hx2 with hxz | hx3
        · by_cases hzm : rulV z < rulV m
          · rw [if_pos hzm, hxz]
            exact List.mem_cons_self z ms'
          · rw [if_neg hzm]
            rcases hmin m hmmem with hlt | heq
            · rw [hxz] at hlt
              exact absurd hlt hzm
            · rw [heq]
              exact List.mem_cons_self x ms'
        · exact List.mem_cons_of_mem _ hx3
    · intro y hy
      rcases List.mem_cons.mp hy with hyw | hy2
      · subst hyw
        split_ifs with hzm
        · exact hmin z hzmem
        · exact hmin m hmmem
      · exact hmin y (List.mem_cons_of_mem m (List.mem_cons_of_mem z hy2))

lemma pyMaxByProb_eq_of_unique (m : ModelResult) (ms : List ModelResult) (x : ModelResult)
    (hx : x ∈ m :: ms) (hmax : ∀ y ∈ m :: ms, fpV y < fpV x ∨ y = x) :
    pyMaxByProb m ms = x := by
  induction ms generalizing m with
  | nil =>
    simp only [List.mem_singleton] at hx
    subst hx
    rfl
  | cons z ms' ih =>
    have hzmem : z ∈ m :: z :: ms' := List.mem_cons_of_mem m (List.mem_cons_self z ms')
    have hmmem : m ∈ m :: z :: ms' := List.mem_cons_self m (z :: ms')
    show pyMaxByProb (if fpV m < fpV z then z else m) ms' = x
    apply ih
    · rcases List.mem_cons.mp hx with hxm | hx2
      · by_cases hzm : fpV m < fpV z
        · rw [if_pos hzm]
          rcases hmax z hzmem with hlt | heq
          · rw [hxm] at hlt
            exact absurd hzm (lt_asymm hlt)
          · rw [heq]
            exact List.mem_cons_self x ms'
        · rw [if_neg hzm, hxm]
          exact List.mem_cons_self m ms'
      · rcases List.mem_cons.mp hx2 with hxz | hx3
        · by_cases hzm : fpV m < fpV z
          · rw [if_pos hzm, hxz]
            exact List.mem_cons_self z ms'
          · rw [if_neg hzm]
            rcases hmax m hmmem with hlt | heq
            · rw [hxz] at hlt
              exact absurd hlt hzm
            · rw [heq]
              exact List.mem_cons_self x ms'
        · exact List.mem_cons_of_mem _ hx3
    · intro y hy
      rcases List.mem_cons.mp hy with hyw | hy2
      · subst hyw
        split_ifs with hzm
        · exact hmax z hzmem
        · exact hmax m hmmem
      · exact hmax y (List.mem_cons_of_mem m (List.mem_cons_of_mem z hy2))


/-- Concrete per-subsystem results for the degraded-DPF example. -/
def dpfI : ModelResult := (SubOutcome.ok ⟨10, 0.5, 0.5, []⟩).toResult "dpf"

def scrI (h2 : ℚ) : ModelResult := (SubOutcome.ok ⟨80, 0.5, h2, []⟩).toResult "scr"

def oilI (h3 : ℚ) : ModelResult := (SubOutcome.ok ⟨80, 0.5, h3, []⟩).toResult "oil"

lemma dpf_degraded_instance (h2 h3 : ℚ) (a : AnomOutcome) :
    ∃ dec, predict_all_decision (unified_results (.ok ⟨10, 0.5, 0.5, []⟩)
        (.ok ⟨80, 0.5, h2, []⟩) (.ok ⟨80, 0.5, h3, []⟩) a) = Except.ok dec ∧
      dec.predictionType = "dpf_failure" ∧ dec.etaDays = 10 := by
  have hrm : rulModels (unified_results (.ok ⟨10, 0.5, 0.5, []⟩) (.ok ⟨80, 0.5, h2, []⟩)
      (.ok ⟨80, 0.5, h3, []⟩) a) = [dpfI, scrI h2, oilI h3] := by
    cases a <;>
      simp [unified_results, rulModels, SubOutcome.toResult, AnomOutcome.toResult, isSuccess,
        dpfI, scrI, oilI]
  have hpm : probModels (unified_results (.ok ⟨10, 0.5, 0.5, []⟩) (.ok ⟨80, 0.5, h2, []⟩)
      (.ok ⟨80, 0.5, h3, []⟩) a) = [dpfI, scrI h2, oilI h3] := by
    cases a <;>
      simp [unified_results, probModels, SubOutcome.toResult, AnomOutcome.toResult, isSuccess,
        dpfI, scrI, oilI]
  have hne : rulModels (unified_results (.ok ⟨10, 0.5, 0.5, []⟩) (.ok ⟨80, 0.5, h2, []⟩)
      (.ok ⟨80, 0.5, h3, []⟩) a) ≠ [] := by
    rw [hrm]
    simp
  have hworst : worstD (unified_results (.ok ⟨10, 0.5, 0.5, []⟩) (.ok ⟨80, 0.5, h2, []⟩)
      (.ok ⟨80, 0.5, h3, []⟩) a) = dpfI := by
    unfold worstD
    rw [hrm]
    apply pyMinByRul_eq_of_unique
    · exact List.mem_cons_self _ _
    · intro y hy
      rcases List.mem_cons.mp hy with rfl | hy2
      · exact Or.inr rfl
      rcases List.mem_cons.mp hy2 with rfl | hy3
      · exact Or.inl (by norm_num [rulV, dpfI, scrI, SubOutcome.toResult])
      rcases List.mem_cons.mp hy3 with rfl | hy4
      · exact Or.inl (by norm_num [rulV, dpfI, oilI, SubOutcome.toResult])
      · cases hy4
  have heta : etaOf (unified_results (.ok ⟨10, 0.5, 0.5, []⟩) (.ok ⟨80, 0.5, h2, []⟩)
      (.ok ⟨80, 0.5, h3, []⟩) a) = 10 := by
    unfold etaOf
    rw [hworst]
    norm_num [rulV, dpfI, SubOutcome.toResult]
  have hcbr : criticalByRul [dpfI, scrI h2, oilI h3] = [dpfI] := by
    unfold criticalByRul
    rw [List.filter_cons_of_pos (by norm_num [rulV, dpfI, SubOutcome.toResult]),
      List.filter_cons_of_neg (by norm_num [rulV, scrI, SubOutcome.toResult]),
      List.filter_cons_of_neg (by norm_num [rulV, oilI, SubOutcome.toResult])]
    rfl
  have hcbp : criticalByProb [dpfI, scrI h2, oilI h3] = [] := by
    unfold criticalByProb
    rw [List.filter_cons_of_neg (by norm_num [fpV, dpfI, SubOutcome.toResult]),
      List.filter_cons_of_neg (by norm_num [fpV, scrI, SubOutcome.toResult]),
      List.filter_cons_of_neg (by norm_num [fpV, oilI, SubOutcome.toResult])]
    rfl
  have hnd : (([dpfI, scrI h2, oilI h3] : List ModelResult).map (fun r => r.model)).Nodup := by
    simp [dpfI, scrI, oilI, SubOutcome.toResult]
  have hsome : ∀ r ∈ ([dpfI, scrI h2, oilI h3] : List ModelResult),
      (healthLookup r).isSome = true := by
    intro r hr
    rcases List.mem_cons.mp hr with rfl | hr2
    · rfl
    rcases List.mem_cons.mp hr2 with rfl | hr3
    · rfl
    rcases List.mem_cons.mp hr3 with rfl | hr4
    · rfl
    · cases hr4
  have hspec : ([dpfI, scrI h2, oilI h3] : List ModelResult).filter
      (fun r => decide (rulV r < 70) && decide (healthV r < 0.85)) = [dpfI] := by
    rw [List.filter_cons_of_pos (by
        norm_num [rulV, healthV, healthLookup, lookupDetail, dpfI, SubOutcome.toResult]),
      List.filter_cons_of_neg (by norm_num [rulV, scrI, SubOutcome.toResult]),
      List.filter_cons_of_neg (by norm_num [rulV, oilI, SubOutcome.toResult])]
    rfl
  have hpt : predictionTypeOf (unified_results (.ok ⟨10, 0.5, 0.5, []⟩) (.ok ⟨80, 0.5, h2, []⟩)
      (.ok ⟨80, 0.5, h3, []⟩) a) = "dpf_failure" := by
    unfold predictionTypeOf
    rw [if_neg (by rw [heta]; rintro ⟨-, h30⟩; norm_num at h30),
      if_neg (by rw [heta]; norm_num)]
    unfold failureType
    rw [hrm, hpm, hcbr, hcbp, hworst,
      if_neg (by simp),
      degradedOf_eq [dpfI, scrI h2, oilI h3] hnd hsome, hspec,
      if_pos (by simp)]
    have hfc : ([dpfI, scrI h2, oilI h3] : List ModelResult).filter
        (fun r => (([dpfI] : List ModelResult).map (fun r => r.model)).contains r.model)
        = [dpfI] := by
      rw [List.filter_cons_of_pos rfl,
        List.filter_cons_of_neg (by simp [dpfI, scrI, SubOutcome.toResult]),
        List.filter_cons_of_neg (by simp [dpfI, oilI, SubOutcome.toResult])]
      rfl
    rw [hfc]
    rfl
  have hetaDays : round2 (etaOf (unified_results (.ok ⟨10, 0.5, 0.5, []⟩)
      (.ok ⟨80, 0.5, h2, []⟩) (.ok ⟨80, 0.5, h3, []⟩) a)) = 10 := by
    rw [heta, show (10:ℚ) = ((10:ℤ):ℚ) from by norm_num, round2_ratInt]
  exact ⟨_, predict_all_decision_ok _ hne, hpt, hetaDays⟩

/-- C4: when neither the anomaly override, nor the healthy branch, nor the
cascade condition applies: among successful subsystems with `rul_days < 70`,
those with stored signal health score `< 0.85` are selected, and if any exist
the prediction is the subsystem label of the one with the lowest `rul_days`;
otherwise, if the subsystem with the highest `failure_probability` reaches
`0.55` its label is used, and otherwise the label of the subsystem with the
globally worst RUL. In particular DPF at `rul_days = 10` with health `0.5`
against SCR/Oil at `rul_days = 80` yields `"dpf_failure"` with `etaDays = 10`. -/
theorem c4_failure_type_selection (results : List ModelResult) (x p : ModelResult)
    (hne : rulModels results ≠ [])
    (hnd : ((rulModels results).map (fun r => r.model)).Nodup)
    (hsome : ∀ r ∈ rulModels results, (healthLookup r).isSome)
    (hA : ¬(isAnomOf results = true ∧ 30 < etaOf results))
    (hH : ¬(55 ≤ etaOf results))
    (hC : ¬(2 ≤ (criticalByRul (rulModels results)).length
      ∨ 2 ≤ (criticalByProb (probModels results)).length)) :
    (x ∈ specDegraded results →
      (∀ y ∈ specDegraded results, rulV x < rulV y ∨ y = x) →
      ∃ dec, predict_all_decision results = Except.ok dec ∧
        dec.predictionType
          = typeMap x.model (typeMap (worstD results).model "cascade_failure")) ∧
    (specDegraded results = [] → p ∈ probModels results →
      (∀ y ∈ probModels results, fpV y < fpV p ∨ y = p) →
      (((0.55:ℚ) ≤ fpV p →
        ∃ dec, predict_all_decision results = Except.ok dec ∧
          dec.predictionType
            = typeMap p.model (typeMap (worstD results).model "cascade_failure")) ∧
       (fpV p < 0.55 →
        ∃ dec, predict_all_decision results = Except.ok dec ∧
          dec.predictionType = typeMap (worstD results).model "cascade_failure"))) ∧
    (∀ (h2 h3 : ℚ) (a : AnomOutcome),
      ∃ dec, predict_all_decision (unified_results (.ok ⟨10, 0.5, 0.5, []⟩)
          (.ok ⟨80, 0.5, h2, []⟩) (.ok ⟨80, 0.5, h3, []⟩) a) = Except.ok dec ∧
        dec.predictionType = "dpf_failure" ∧ dec.etaDays = 10) := by
  have hpt0 : predictionTypeOf results
      = failureType (rulModels results) (probModels results) (worstD results) := by
    unfold predictionTypeOf
    rw [if_neg hA, if_neg hH]
  refine ⟨?_, ?_, dpf_degraded_instance⟩
  · intro hx hmin
    unfold specDegraded at hx hmin
    have hfil := filter_contains_degraded (rulModels results) hnd hsome
    have hdeg : degradedOf (rulModels results) ≠ [] := by
      rw [degradedOf_eq (rulModels results) hnd hsome]
      intro hcon
      cases hsd2 : (rulModels results).filter
          (fun r => decide (rulV r < 70) && decide (healthV r < 0.85)) with
      | nil => rw [hsd2] at hx; exact absurd hx (List.not_mem_nil x)
      | cons m ms => rw [hsd2] at hcon; exact absurd hcon (by simp)
    have hft : failureType (rulModels results) (probModels results) (worstD results)
        = typeMap x.model (typeMap (worstD results).model "cascade_failure") := by
      unfold failureType
      rw [if_neg hC, if_pos hdeg, hfil]
      cases hsd : (rulModels results).filter
          (fun r => decide (rulV r < 70) && decide (healthV r < 0.85)) with
      | nil => rw [hsd] at hx; exact absurd hx (List.not_mem_nil x)
      | cons m ms =>
        show typeMap (pyMinByRul m ms).model
          (typeMap (worstD results).model "cascade_failure") = _
        rw [pyMinByRul_eq_of_unique m ms x (hsd ▸ hx) (fun y hy => hmin y (hsd ▸ hy))]
    exact ⟨_, predict_all_decision_ok results hne, hpt0.trans hft⟩
  · intro hsd0 hp hpmax
    unfold specDegraded at hsd0
    have hdeg0 : degradedOf (rulModels results) = [] := by
      rw [degradedOf_eq (rulModels results) hnd hsome, hsd0]
      rfl
    have hstep : failureType (rulModels results) (probModels results) (worstD results)
        = (if (0.55:ℚ) ≤ fpV p
           then typeMap p.model (typeMap (worstD results).model "cascade_failure")
           else typeMap (worstD results).model "cascade_failure") := by
      unfold failureType
      rw [if_neg hC, if_neg (by rw [hdeg0]; simp)]
      cases hpm : probModels results with
      | nil => rw [hpm] at hp; exact absurd hp (List.not_mem_nil p)
      | cons q qs =>
        show (if (0.55:ℚ) ≤ fpV (pyMaxByProb q qs)
          then typeMap (pyMaxByProb q qs).model
            (typeMap (worstD results).model "cascade_failure")
          else typeMap (worstD results).model "cascade_failure") = _
        rw [pyMaxByProb_eq_of_unique q qs p (hpm ▸ hp) (fun y hy => hpmax y (hpm ▸ hy))]
    constructor
    · intro h55
      exact ⟨_, predict_all_decision_ok results hne,
        hpt0.trans (hstep.trans (if_pos h55))⟩
    · intro hlt
      exact ⟨_, predict_all_decision_ok results hne,
        hpt0.trans (hstep.trans (if_neg (not_le.mpr hlt)))⟩

lemma criticalByProb_nil_of (pm : List ModelResult) (h : ∀ r ∈ pm, fpV r < 0.6) :
    criticalByProb pm = [] := by
  unfold criticalByProb
  rw [List.filter_eq_nil]
  intro r hr
  simp [decide_eq_false (not_le.mpr (h r hr))]

theorem c4_failure_type_selection_witness :
    ∃ dec, predict_all_decision (unified_results (.ok ⟨10, 0.5, 0.5, []⟩)
        (.ok ⟨80, 0.5, 0.9, []⟩) (.ok ⟨80, 0.5, 0.95, []⟩) (.err "anomaly down"))
      = Except.ok dec ∧ dec.predictionType = "dpf_failure" ∧ dec.etaDays = 10 := by
  have h1 : rulModels (unified_results (.ok ⟨10, 0.5, 0.5, []⟩) (.ok ⟨80, 0.5, 0.9, []⟩)
      (.ok ⟨80, 0.5, 0.95, []⟩) (.err "anomaly down")) = [dpfI, scrI 0.9, oilI 0.95] := rfl
  have h2 : probModels (unified_results (.ok ⟨10, 0.5, 0.5, []⟩) (.ok ⟨80, 0.5, 0.9, []⟩)
      (.ok ⟨80, 0.5, 0.95, []⟩) (.err "anomaly down")) = [dpfI, scrI 0.9, oilI 0.95] := rfl
  have h3 : criticalByRul [dpfI, scrI (0.9:ℚ), oilI (0.95:ℚ)] = [dpfI] := by
    unfold criticalByRul
    rw [List.filter_cons_of_pos (by norm_num [rulV, dpfI, SubOutcome.toResult]),
      List.filter_cons_of_neg (by norm_num [rulV, scrI, SubOutcome.toResult]),
      List.filter_cons_of_neg (by norm_num [rulV, oilI, SubOutcome.toResult])]
    rfl
  have h4 : criticalByProb [dpfI, scrI (0.9:ℚ), oilI (0.95:ℚ)] = [] := by
    apply criticalByProb_nil_of
    intro r hr
    rcases List.mem_cons.mp hr with rfl | hr2
    · norm_num [fpV, dpfI, SubOutcome.toResult]
    rcases List.mem_cons.mp hr2 with rfl | hr3
    · norm_num [fpV, scrI, SubOutcome.toResult]
    rcases List.mem_cons.mp hr3 with rfl | hr4
    · norm_num [fpV, oilI, SubOutcome.toResult]
    · cases hr4
  have hC : ¬(2 ≤ (criticalByRul (rulModels (unified_results (.ok ⟨10, 0.5, 0.5, []⟩)
        (.ok ⟨80, 0.5, 0.9, []⟩) (.ok ⟨80, 0.5, 0.95, []⟩) (.err "anomaly down")))).length
      ∨ 2 ≤ (criticalByProb (probModels (unified_results (.ok ⟨10, 0.5, 0.5, []⟩)
        (.ok ⟨80, 0.5, 0.9, []⟩) (.ok ⟨80, 0.5, 0.95, []⟩) (.err "anomaly down")))).length) := by
    rw [h1, h2, h3, h4]
    simp
  exact (c4_failure_type_selection
      (unified_results (.ok ⟨10, 0.5, 0.5, []⟩) (.ok ⟨80, 0.5, 0.9, []⟩)
        (.ok ⟨80, 0.5, 0.95, []⟩) (.err "anomaly down"))
      dpfI dpfI (by decide) (by decide) (by decide) (by decide) (by decide) hC).2.2
    0.9 0.95 (.err "anomaly down")
